import Mathlib

/-!
Verification of the cooperative LED-badge firmware (src/cooperative/main.c).

The firmware is embedded shallowly:

* Machine integers are modelled as `Nat` with explicit reduction modulo
  2^32 where the C code relies on `uint32_t` wraparound (`u32`, `sub32`).
* The hardware environment (the `millis()` counter and the IR receiver pin
  bit `(PA >> 4) & 1`) is modelled as a finite trace of samples, one
  `(clock, pin)` pair per poll iteration.  Busy-wait loops recurse
  structurally on the trace and return `none` when the trace is exhausted,
  so a `some` result corresponds exactly to a terminating execution of
  the C loop.
* The global variables `state`, `previoustime` and `previouspinstate`
  form the record `Sys`; the LED output registers `PA`, `PB`, `PAC`, `PBC`
  form the record `Regs`.  Functions take and return these records
  explicitly instead of mutating globals.
-/

/-- Reduction modulo 2^32, the behaviour of storing into a `uint32_t`. -/
def u32 (n : Nat) : Nat := n % 4294967296

/-- Wraparound-safe unsigned 32-bit difference, the value of the C
expression `a - b` at type `uint32_t`. -/
def sub32 (a b : Nat) : Nat := (u32 a + 4294967296 - u32 b) % 4294967296

/-- One poll sample of the environment: the value read by `millis()`
followed by the value of the IR receiver bit `(PA >> 4) & 1`. -/
abbrev Sample := Nat × Nat

/-- A finite trace of poll samples consumed left to right. -/
abbrev Trace := List Sample

/-- The firmware's global scheduler state: `state` (uint8), `previoustime`
(uint32) and `previouspinstate` (uint8), as declared in main.c. -/
structure Sys where
  state : Nat
  previoustime : Nat
  previouspinstate : Nat
deriving DecidableEq

/-- Result of a call to `waituntil`: the returned value (0 = timeout,
1 = sync detected), the updated globals, and the unconsumed trace. -/
structure WU where
  ret : Nat
  sys : Sys
  rest : Trace
deriving DecidableEq

/-- The `while` loop of `waituntil`: while
`currenttime - previoustime < time && (currentpinstate==0 || previouspinstate==1)`
resample clock and pin, shifting the current pin sample into
`previouspinstate`.  Arguments are the locals `currenttime`,
`currentpinstate` and the global `previouspinstate`; returns their values
at loop exit together with the unconsumed trace, or `none` when the trace
is exhausted before the loop exits. -/
def waitLoop (time prevT : Nat) : Nat → Nat → Nat → Trace → Option (Nat × Nat × Nat × Trace)
  | ct, cp, pp, tr =>
    if sub32 ct prevT < time ∧ (cp = 0 ∨ pp = 1) then
      match tr with
      | [] => none
      | (t, p) :: rest => waitLoop time prevT t p cp rest
    else
      some (ct, cp, pp, tr)

/-- `waituntil(time)` from main.c: samples clock and pin, polls until the
budget elapses or a rising edge is pending, then either takes the
sync branch (`state=0; previoustime=currenttime; previouspinstate=1;
return 1`) or the timeout branch (`previoustime += time; return 0`).
The head of the trace supplies the entry samples. -/
def waituntil (time : Nat) (s : Sys) (tr : Trace) : Option WU :=
  match tr with
  | [] => none
  | (t0, p0) :: rest =>
    match waitLoop time s.previoustime t0 p0 s.previouspinstate rest with
    | none => none
    | some (ct, cp, pp, rem) =>
      if cp = 1 ∧ pp = 0 then
        some ⟨1, ⟨0, ct, 1⟩, rem⟩
      else
        some ⟨0, ⟨s.state, u32 (s.previoustime + time), pp⟩, rem⟩

/-- Modelled from the spec: the clock instant at which the Step Waiter
recognises a rising edge.  Scanning the samples in order, with the
stored `previouspinstate` playing the role of the sample before the
first, an edge is recognised at the first sample whose pin reads HIGH
while the preceding sample read LOW, provided every earlier sample was
still within the wait budget; the scan stops (no detection) at the first
non-edge sample at which the budget has elapsed. -/
def specEdgeClock (time prevT : Nat) : Nat → Trace → Option Nat
  | _, [] => none
  | pp, (t, p) :: rest =>
    if p = 1 ∧ pp = 0 then some t
    else if sub32 t prevT < time then specEdgeClock time prevT p rest
    else none

/-- Modelled from the spec, literally as claim C1 words it: some sample
reads HIGH, the preceding sample (or the stored `previouspinstate` for
the first) read LOW, and that HIGH sample's clock is strictly within the
budget. -/
def specStrictEdge (time prevT pp0 : Nat) (tr : Trace) : Prop :=
  ∃ k : Fin tr.length,
    (tr.get k).2 = 1 ∧
    (pp0 :: tr.map Prod.snd).getD (k : Nat) 0 = 0 ∧
    sub32 (tr.get k).1 prevT < time

instance (time prevT pp0 : Nat) (tr : Trace) : Decidable (specStrictEdge time prevT pp0 tr) := by
  unfold specStrictEdge; infer_instance

/-- Every pin sample in a trace is a genuine one-bit reading. -/
def pinsOK (tr : Trace) : Prop := ∀ x ∈ tr, x.2 ≤ 1

instance : DecidablePred (pinsOK) := fun tr => by
  unfold pinsOK; infer_instance

/-- A trace whose pin samples are all LOW. -/
def quiet (tr : Trace) : Prop := ∀ x ∈ tr, x.2 = 0

instance : DecidablePred quiet := fun tr => by
  unfold quiet; infer_instance

/-- The LED output registers of the PFS154: data registers `PA`, `PB` and
direction (output-enable) registers `PAC`, `PBC`, each one byte wide. -/
structure Regs where
  PA : Nat
  PB : Nat
  PAC : Nat
  PBC : Nat
deriving DecidableEq

/-- The pre-switch statement of the left half of `setled`:
`PAC &= 0x7f; PBC &= 0x0f` (disable all left outputs). -/
def clearLeft (g : Regs) : Regs :=
  { g with PAC := g.PAC &&& 0x7f, PBC := g.PBC &&& 0x0f }

/-- The `switch (left)` of `setled`, transcribed case by case; the
default case (20 and negative values) changes nothing further. -/
def driveLeft (left : Int) (g1 : Regs) : Regs :=
  if left = 0 then { g1 with PA := g1.PA &&& 0x7f, PAC := g1.PAC ||| 0x80, PB := g1.PB ||| 0x10, PBC := g1.PBC ||| 0x10 }
  else if left = 1 then { g1 with PB := (g1.PB &&& 0x7f) ||| 0x10, PBC := (g1.PBC ||| 0x80) ||| 0x10 }
  else if left = 2 then { g1 with PB := (g1.PB &&& 0xbf) ||| 0x10, PBC := (g1.PBC ||| 0x40) ||| 0x10 }
  else if left = 3 then { g1 with PB := (g1.PB &&& 0xdf) ||| 0x10, PBC := (g1.PBC ||| 0x20) ||| 0x10 }
  else if left = 4 then { g1 with PA := g1.PA &&& 0x7f, PAC := g1.PAC ||| 0x80, PB := g1.PB ||| 0x20, PBC := g1.PBC ||| 0x20 }
  else if left = 5 then { g1 with PB := (g1.PB &&& 0x7f) ||| 0x20, PBC := (g1.PBC ||| 0x80) ||| 0x20 }
  else if left = 6 then { g1 with PB := (g1.PB &&& 0xbf) ||| 0x20, PBC := (g1.PBC ||| 0x40) ||| 0x20 }
  else if left = 7 then { g1 with PB := (g1.PB &&& 0xef) ||| 0x20, PBC := (g1.PBC ||| 0x10) ||| 0x20 }
  else if left = 8 then { g1 with PA := g1.PA &&& 0x7f, PAC := g1.PAC ||| 0x80, PB := g1.PB ||| 0x40, PBC := g1.PBC ||| 0x40 }
  else if left = 9 then { g1 with PB := (g1.PB &&& 0x7f) ||| 0x40, PBC := (g1.PBC ||| 0x80) ||| 0x40 }
  else if left = 10 then { g1 with PB := (g1.PB &&& 0xdf) ||| 0x40, PBC := (g1.PBC ||| 0x20) ||| 0x40 }
  else if left = 11 then { g1 with PB := (g1.PB &&& 0xef) ||| 0x40, PBC := (g1.PBC ||| 0x10) ||| 0x40 }
  else if left = 12 then { g1 with PA := g1.PA &&& 0x7f, PAC := g1.PAC ||| 0x80, PB := g1.PB ||| 0x80, PBC := g1.PBC ||| 0x80 }
  else if left = 13 then { g1 with PB := (g1.PB &&& 0xbf) ||| 0x80, PBC := (g1.PBC ||| 0x40) ||| 0x80 }
  else if left = 14 then { g1 with PB := (g1.PB &&& 0xdf) ||| 0x80, PBC := (g1.PBC ||| 0x20) ||| 0x80 }
  else if left = 15 then { g1 with PB := (g1.PB &&& 0xef) ||| 0x80, PBC := (g1.PBC ||| 0x10) ||| 0x80 }
  else if left = 16 then { g1 with PB := g1.PB &&& 0x7f, PBC := g1.PBC ||| 0x80, PA := g1.PA ||| 0x80, PAC := g1.PAC ||| 0x80 }
  else if left = 17 then { g1 with PB := g1.PB &&& 0xbf, PBC := g1.PBC ||| 0x40, PA := g1.PA ||| 0x80, PAC := g1.PAC ||| 0x80 }
  else if left = 18 then { g1 with PB := g1.PB &&& 0xdf, PBC := g1.PBC ||| 0x20, PA := g1.PA ||| 0x80, PAC := g1.PAC ||| 0x80 }
  else if left = 19 then { g1 with PB := g1.PB &&& 0xef, PBC := g1.PBC ||| 0x10, PA := g1.PA ||| 0x80, PAC := g1.PAC ||| 0x80 }
  else g1

/-- The left `if` block of `setled`: guarded by `left < 21`, disable all
left outputs, then drive the selected pin pair. -/
def setledLeft (left : Int) (g : Regs) : Regs :=
  if left < 21 then driveLeft left (clearLeft g) else g

/-- The pre-switch statement of the right half of `setled`:
`PAC &= 0xfe; PBC &= 0xf0` (disable all right outputs). -/
def clearRight (g : Regs) : Regs :=
  { g with PAC := g.PAC &&& 0xfe, PBC := g.PBC &&& 0xf0 }

/-- The `switch (right)` of `setled`, transcribed case by case. -/
def driveRight (right : Int) (g1 : Regs) : Regs :=
  if right = 0 then { g1 with PA := g1.PA &&& 0xfe, PAC := g1.PAC ||| 0x01, PB := g1.PB ||| 0x08, PBC := g1.PBC ||| 0x08 }
  else if right = 1 then { g1 with PB := (g1.PB &&& 0xfe) ||| 0x08, PBC := (g1.PBC ||| 0x01) ||| 0x08 }
  else if right = 2 then { g1 with PB := (g1.PB &&& 0xfd) ||| 0x08, PBC := (g1.PBC ||| 0x02) ||| 0x08 }
  else if right = 3 then { g1 with PB := (g1.PB &&& 0xfb) ||| 0x08, PBC := (g1.PBC ||| 0x04) ||| 0x08 }
  else if right = 4 then { g1 with PA := g1.PA &&& 0xfe, PAC := g1.PAC ||| 0x01, PB := g1.PB ||| 0x04, PBC := g1.PBC ||| 0x04 }
  else if right = 5 then { g1 with PB := (g1.PB &&& 0xfe) ||| 0x04, PBC := (g1.PBC ||| 0x01) ||| 0x04 }
  else if right = 6 then { g1 with PB := (g1.PB &&& 0xfd) ||| 0x04, PBC := (g1.PBC ||| 0x02) ||| 0x04 }
  else if right = 7 then { g1 with PB := (g1.PB &&& 0xf7) ||| 0x04, PBC := (g1.PBC ||| 0x08) ||| 0x04 }
  else if right = 8 then { g1 with PA := g1.PA &&& 0xfe, PAC := g1.PAC ||| 0x01, PB := g1.PB ||| 0x02, PBC := g1.PBC ||| 0x02 }
  else if right = 9 then { g1 with PB := (g1.PB &&& 0xfe) ||| 0x02, PBC := (g1.PBC ||| 0x01) ||| 0x02 }
  else if right = 10 then { g1 with PB := (g1.PB &&& 0xfb) ||| 0x02, PBC := (g1.PBC ||| 0x04) ||| 0x02 }
  else if right = 11 then { g1 with PB := (g1.PB &&& 0xf7) ||| 0x02, PBC := (g1.PBC ||| 0x08) ||| 0x02 }
  else if right = 12 then { g1 with PA := g1.PA &&& 0xfe, PAC := g1.PAC ||| 0x01, PB := g1.PB ||| 0x01, PBC := g1.PBC ||| 0x01 }
  else if right = 13 then { g1 with PB := (g1.PB &&& 0xfd) ||| 0x01, PBC := (g1.PBC ||| 0x02) ||| 0x01 }
  else if right = 14 then { g1 with PB := (g1.PB &&& 0xfb) ||| 0x01, PBC := (g1.PBC ||| 0x04) ||| 0x01 }
  else if right = 15 then { g1 with PB := (g1.PB &&& 0xf7) ||| 0x01, PBC := (g1.PBC ||| 0x08) ||| 0x01 }
  else if right = 16 then { g1 with PB := g1.PB &&& 0xfe, PBC := g1.PBC ||| 0x01, PA := g1.PA ||| 0x01, PAC := g1.PAC ||| 0x01 }
  else if right = 17 then { g1 with PB := g1.PB &&& 0xfd, PBC := g1.PBC ||| 0x02, PA := g1.PA ||| 0x01, PAC := g1.PAC ||| 0x01 }
  else if right = 18 then { g1 with PB := g1.PB &&& 0xfb, PBC := g1.PBC ||| 0x04, PA := g1.PA ||| 0x01, PAC := g1.PAC ||| 0x01 }
  else if right = 19 then { g1 with PB := g1.PB &&& 0xf7, PBC := g1.PBC ||| 0x08, PA := g1.PA ||| 0x01, PAC := g1.PAC ||| 0x01 }
  else g1

/-- The right `if` block of `setled`. -/
def setledRight (right : Int) (g : Regs) : Regs :=
  if right < 21 then driveRight right (clearRight g) else g

/-- `setled(left, right)` from main.c: the left `if` block followed by the
right `if` block. -/
def setled (left right : Int) (g : Regs) : Regs :=
  setledRight right (setledLeft left g)

/-- A left-side pin is driving (its output enabled): `PAC` bit 7 or one
of `PBC` bits 4..7.  Some left LED can be lit only when this holds. -/
def leftActive (g : Regs) : Prop :=
  g.PAC.testBit 7 = true ∨ g.PBC.testBit 4 = true ∨ g.PBC.testBit 5 = true ∨
  g.PBC.testBit 6 = true ∨ g.PBC.testBit 7 = true

/-- A right-side pin is driving: `PAC` bit 0 or one of `PBC` bits 0..3. -/
def rightActive (g : Regs) : Prop :=
  g.PAC.testBit 0 = true ∨ g.PBC.testBit 0 = true ∨ g.PBC.testBit 1 = true ∨
  g.PBC.testBit 2 = true ∨ g.PBC.testBit 3 = true

instance (g : Regs) : Decidable (leftActive g) := by unfold leftActive; infer_instance

instance (g : Regs) : Decidable (rightActive g) := by unfold rightActive; infer_instance

/-- The fixed 40-entry table driving the random pattern, transcribed
literally from `randomsequence[]` in main.c. -/
def randomsequence : List Nat :=
  [9, 19, 3, 2, 16, 17, 6, 18, 1, 8, 0, 14, 15, 5, 7, 10, 11, 12, 4, 10,
   10, 1, 15, 8, 17, 9, 6, 16, 7, 13, 11, 0, 2, 3, 4, 18, 12, 14, 5, 19]

/-- Array read `randomsequence[i]` (all accesses in the source are in
bounds, so the default is never used). -/
def rs (i : Nat) : Nat := randomsequence.getD i 0

/-- The `setled` argument pairs issued by one repeat of `singleledccw`:
`setled(i,20)` for i = 0..19 followed by `setled(20,19-i)` for i = 0..19. -/
def singleledccwSteps : List (Int × Int) :=
  (List.range 20).map (fun i => ((i : Int), 20)) ++
  (List.range 20).map (fun i => (20, 19 - (i : Int)))

/-- One repeat of `singleledcw`: `setled(20,i)` then `setled(19-i,20)`. -/
def singleledcwSteps : List (Int × Int) :=
  (List.range 20).map (fun i => (20, (i : Int))) ++
  (List.range 20).map (fun i => (19 - (i : Int), 20))

/-- One repeat of `twoledsccw`: `setled(i,19-i)`. -/
def twoledsccwSteps : List (Int × Int) :=
  (List.range 20).map (fun i => ((i : Int), 19 - (i : Int)))

/-- One repeat of `twoledscw`: `setled(19-i,i)`. -/
def twoledscwSteps : List (Int × Int) :=
  (List.range 20).map (fun i => (19 - (i : Int), (i : Int)))

/-- One repeat of `twoledsflapdown`: `setled(i,i)`. -/
def twoledsflapdownSteps : List (Int × Int) :=
  (List.range 20).map (fun i => ((i : Int), (i : Int)))

/-- One repeat of `twoledsflapup`: `setled(19-i,19-i)`. -/
def twoledsflapupSteps : List (Int × Int) :=
  (List.range 20).map (fun i => (19 - (i : Int), 19 - (i : Int)))

/-- One repeat of `twoledsflap`: the down pass followed by the up pass. -/
def twoledsflapSteps : List (Int × Int) :=
  twoledsflapdownSteps ++ twoledsflapupSteps

/-- Forward pass of `twoledsrandom`: `setled(rs[i], rs[i+20])`. -/
def twoledsrandomPassA : List (Int × Int) :=
  (List.range 20).map (fun i => ((rs i : Int), (rs (i + 20) : Int)))

/-- Reversed-operand pass of `twoledsrandom`: `setled(rs[i+20], rs[i])`. -/
def twoledsrandomPassB : List (Int × Int) :=
  (List.range 20).map (fun i => ((rs (i + 20) : Int), (rs i : Int)))

/-- Reverse-forward pass of `twoledsrandom`: `setled(rs[19-i], rs[39-i])`. -/
def twoledsrandomPassC : List (Int × Int) :=
  (List.range 20).map (fun i => ((rs (19 - i) : Int), (rs (39 - i) : Int)))

/-- Reverse-reversed pass of `twoledsrandom`: `setled(rs[39-i], rs[19-i])`. -/
def twoledsrandomPassD : List (Int × Int) :=
  (List.range 20).map (fun i => ((rs (39 - i) : Int), (rs (19 - i) : Int)))

/-- One repeat of `twoledsrandom`: the four directional passes in order. -/
def twoledsrandomSteps : List (Int × Int) :=
  twoledsrandomPassA ++ twoledsrandomPassB ++ twoledsrandomPassC ++ twoledsrandomPassD

/-- The body of one repeat of a pattern function: for each step, call
`setled` with that step's arguments and then `waituntil(25)`; if
`waituntil` returns 1 stop at once (the C `return`), reported through
the leading `Bool`. -/
def runSteps : List (Int × Int) → Sys → Regs → Trace → Option (Bool × Sys × Regs × Trace)
  | [], s, g, tr => some (false, s, g, tr)
  | (l, r) :: steps, s, g, tr =>
    let g1 := setled l r g
    match waituntil 25 s tr with
    | none => none
    | some w =>
      if w.ret = 1 then some (true, w.sys, g1, w.rest)
      else runSteps steps w.sys g1 w.rest

/-- The outer `for (r=0; r<n; r++)` loop of a pattern function: replay
the repeat body `n` times, returning immediately (flag `true`) when the
body was cut short by a sync detection. -/
def playRepeats (steps : List (Int × Int)) : Nat → Sys → Regs → Trace → Option (Bool × Sys × Regs × Trace)
  | 0, s, g, tr => some (false, s, g, tr)
  | Nat.succ m, s, g, tr =>
    match runSteps steps s g tr with
    | none => none
    | some (true, s1, g1, tr1) => some (true, s1, g1, tr1)
    | some (false, s1, g1, tr1) => playRepeats steps m s1 g1 tr1

/-- Pattern function `singleledccw(n)`. -/
def singleledccw (n : Nat) : Sys → Regs → Trace → Option (Bool × Sys × Regs × Trace) :=
  playRepeats singleledccwSteps n

/-- Pattern function `singleledcw(n)`. -/
def singleledcw (n : Nat) : Sys → Regs → Trace → Option (Bool × Sys × Regs × Trace) :=
  playRepeats singleledcwSteps n

/-- Pattern function `twoledsccw(n)`. -/
def twoledsccw (n : Nat) : Sys → Regs → Trace → Option (Bool × Sys × Regs × Trace) :=
  playRepeats twoledsccwSteps n

/-- Pattern function `twoledscw(n)`. -/
def twoledscw (n : Nat) : Sys → Regs → Trace → Option (Bool × Sys × Regs × Trace) :=
  playRepeats twoledscwSteps n

/-- Pattern function `twoledsflapdown(n)`. -/
def twoledsflapdown (n : Nat) : Sys → Regs → Trace → Option (Bool × Sys × Regs × Trace) :=
  playRepeats twoledsflapdownSteps n

/-- Pattern function `twoledsflapup(n)`. -/
def twoledsflapup (n : Nat) : Sys → Regs → Trace → Option (Bool × Sys × Regs × Trace) :=
  playRepeats twoledsflapupSteps n

/-- Pattern function `twoledsflap(n)`. -/
def twoledsflap (n : Nat) : Sys → Regs → Trace → Option (Bool × Sys × Regs × Trace) :=
  playRepeats twoledsflapSteps n

/-- Pattern function `twoledsrandom(n)`. -/
def twoledsrandom (n : Nat) : Sys → Regs → Trace → Option (Bool × Sys × Regs × Trace) :=
  playRepeats twoledsrandomSteps n

/-- The step tables of the eight built-in pattern functions, in the order
the scheduler dispatches them. -/
def builtinSteps : List (List (Int × Int)) :=
  [singleledccwSteps, singleledcwSteps, twoledsccwSteps, twoledscwSteps,
   twoledsflapdownSteps, twoledsflapupSteps, twoledsflapSteps, twoledsrandomSteps]

/-- The busy-wait loop of `syncpulse`: resample `millis()` (ignoring the
pin component of the samples) until `currenttime - previoustime >= time`;
returns the final clock value and the unconsumed trace. -/
def pulseLoop (time t0 : Nat) : Nat → Trace → Option (Nat × Trace)
  | ct, tr =>
    if sub32 ct t0 < time then
      match tr with
      | [] => none
      | (t, _) :: rest => pulseLoop time t0 t rest
    else
      some (ct, tr)

/-- `syncpulse(time)` from main.c: sample the clock, set `previoustime`
to that sample, busy-wait for `time` milliseconds, then force `PA = 0`.
The timer-2 PWM registers are outside the model.  The returned `Nat` is
the clock value at which the pulse ended (the last `millis()` reading). -/
def syncpulse (time : Nat) (s : Sys) (g : Regs) (tr : Trace) : Option (Nat × Sys × Regs × Trace) :=
  match tr with
  | [] => none
  | (t0, _) :: rest =>
    match pulseLoop time t0 t0 rest with
    | none => none
    | some (ct, rem) => some (ct, { s with previoustime := t0 }, { g with PA := 0 }, rem)

/-- What one scheduler tick did: dispatched pattern number `i` with its
repeat count, or transmitted the sync pulse (carrying the clock value at
which the pulse ended). -/
inductive TickAct where
  | pat : Nat → Nat → TickAct
  | pulse : Nat → TickAct
deriving DecidableEq

/-- `loop()` from main.c: pre-increment `state` (a uint8, hence mod 256),
dispatch on the new value to one of the eight pattern functions, and in
the default case transmit a 25 ms sync pulse and reset `state` to 0. -/
def loop (s : Sys) (g : Regs) (tr : Trace) : Option (TickAct × Sys × Regs × Trace) :=
  let s1 : Sys := { s with state := (s.state + 1) % 256 }
  match s1.state with
  | 1 => (singleledccw 4 s1 g tr).map (fun o => (TickAct.pat 1 4, o.2.1, o.2.2.1, o.2.2.2))
  | 2 => (singleledcw 4 s1 g tr).map (fun o => (TickAct.pat 2 4, o.2.1, o.2.2.1, o.2.2.2))
  | 3 => (twoledsccw 8 s1 g tr).map (fun o => (TickAct.pat 3 8, o.2.1, o.2.2.1, o.2.2.2))
  | 4 => (twoledscw 8 s1 g tr).map (fun o => (TickAct.pat 4 8, o.2.1, o.2.2.1, o.2.2.2))
  | 5 => (twoledsflapdown 8 s1 g tr).map (fun o => (TickAct.pat 5 8, o.2.1, o.2.2.1, o.2.2.2))
  | 6 => (twoledsflapup 8 s1 g tr).map (fun o => (TickAct.pat 6 8, o.2.1, o.2.2.1, o.2.2.2))
  | 7 => (twoledsflap 4 s1 g tr).map (fun o => (TickAct.pat 7 4, o.2.1, o.2.2.1, o.2.2.2))
  | 8 => (twoledsrandom 4 s1 g tr).map (fun o => (TickAct.pat 8 4, o.2.1, o.2.2.1, o.2.2.2))
  | _ => (syncpulse 25 s1 g tr).map (fun o => (TickAct.pulse o.1, { o.2.1 with state := 0 }, o.2.2.1, o.2.2.2))

/-- Iterate `loop` a given number of times, collecting the tick actions. -/
def runTicks : Nat → Sys → Regs → Trace → Option (List TickAct × Sys × Regs × Trace)
  | 0, s, g, tr => some ([], s, g, tr)
  | Nat.succ m, s, g, tr =>
    match loop s g tr with
    | none => none
    | some (a, s1, g1, tr1) =>
      match runTicks m s1 g1 tr1 with
      | none => none
      | some (as, s2, g2, tr2) => some (a :: as, s2, g2, tr2)

/-- The scheduler globals as `setup()` leaves them when the clock reads 0:
`state = 0`, `previoustime = millis() = 0`, `previouspinstate = 1`. -/
def setupSys : Sys := { state := 0, previoustime := 0, previouspinstate := 1 }

/-- The output registers as `setup()` leaves them:
`PA = 0; PB = 0; PAC = 0x08; PBC = 0`. -/
def setupRegs : Regs := { PA := 0, PB := 0, PAC := 0x08, PBC := 0 }

/-- The values a list of `setled` steps sends to the LED driver, in
order: for each step first the left then the right argument. -/
def stepVals (steps : List (Int × Int)) : List Int :=
  steps.flatMap (fun p => [p.1, p.2])

/-- The step sequence of the built-in patterns applied to the registers,
in order (the fold of `setled` over a step list). -/
def applySteps (steps : List (Int × Int)) (g : Regs) : Regs :=
  steps.foldl (fun g2 p => setled p.1 p.2 g2) g

/-- An idealised poll trace with the pin silent and one `millis()` sample
per step, each landing exactly 25 ms after the previous step's deadline:
sample `k` reads clock `t0 + 25 * (k + 1)` and pin 0. -/
def snugFrom (t0 n : Nat) : Trace :=
  (List.range n).map (fun k => (t0 + 25 * (k + 1), 0))

/-- Total number of animation steps in one full scheduler cycle, from
the dispatch table of `loop`: repeat counts 4,4,8,8,8,8,4,4 times the
step counts of the eight patterns. -/
def cycleStepTotal : Nat :=
  4 * singleledccwSteps.length + 4 * singleledcwSteps.length +
  8 * twoledsccwSteps.length + 8 * twoledscwSteps.length +
  8 * twoledsflapdownSteps.length + 8 * twoledsflapupSteps.length +
  4 * twoledsflapSteps.length + 4 * twoledsrandomSteps.length

/-- The canonical quiet trace of one full cycle starting at clock 0: one
snug segment per pattern dispatch, then the two `millis()` readings of
`syncpulse` (its entry read at 36000 and its exit read at 36025). -/
def cycleTrace : Trace :=
  snugFrom 0 160 ++ snugFrom 4000 160 ++ snugFrom 8000 160 ++ snugFrom 12000 160 ++
  snugFrom 16000 160 ++ snugFrom 20000 160 ++ snugFrom 24000 160 ++ snugFrom 28000 320 ++
  [(36000, 0), (36025, 0)]

/-- The canonical quiet trace extended by a tenth tick (pattern 1 again). -/
def cycleTrace10 : Trace := cycleTrace ++ snugFrom 36000 160

-- scratch sanity checks (entry sample already past budget with stale low => sync)
example : waituntil 25 ⟨7, 0, 1⟩ [(0, 0), (25, 1)] = some ⟨1, ⟨0, 25, 1⟩, []⟩ := by decide
example : waituntil 25 ⟨3, 0, 1⟩ [(25, 0)] = some ⟨0, ⟨3, 25, 1⟩, []⟩ := by decide
example : specEdgeClock 25 0 1 [(0, 0), (25, 1)] = some 25 := by decide
example : ¬ specStrictEdge 25 0 1 [(0, 0), (25, 1)] := by decide

/-! Relating the polling loop of `waituntil` to the spec-level edge scan. -/

lemma waitLoop_specEdge (time prevT : Nat) :
    ∀ (tr : Trace) (ct cp pp ct' cp' pp' : Nat) (rem : Trace),
      cp ≤ 1 → pp ≤ 1 → pinsOK tr →
      waitLoop time prevT ct cp pp tr = some (ct', cp', pp', rem) →
      specEdgeClock time prevT pp ((ct, cp) :: tr) =
        (if cp' = 1 ∧ pp' = 0 then some ct' else none) := by
  intro tr
  induction tr with
  | nil =>
    intro ct cp pp ct' cp' pp' rem hcp hpp _ hw
    rw [waitLoop] at hw
    split at hw
    · exact absurd hw (by simp)
    · rename_i hguard
      rw [Option.some_inj, Prod.mk.injEq, Prod.mk.injEq, Prod.mk.injEq] at hw
      obtain ⟨h1, h2, h3, h4⟩ := hw
      subst h1; subst h2; subst h3
      by_cases hrise : cp = 1 ∧ pp = 0
      · rw [specEdgeClock]
        simp [hrise.1, hrise.2]
      · have hE : ¬ (sub32 ct prevT < time) := by
          intro hEt
          rcases Decidable.not_and_iff_or_not.mp hguard with h | h
          · exact h hEt
          · omega
        rw [specEdgeClock]
        simp [hrise, hE]
  | cons x rest ih =>
    intro ct cp pp ct' cp' pp' rem hcp hpp hpins hw
    obtain ⟨t, p⟩ := x
    rw [waitLoop] at hw
    split at hw
    · rename_i hguard
      have hrise : ¬ (cp = 1 ∧ pp = 0) := by omega
      have hrec := ih t p cp ct' cp' pp' rem (hpins (t, p) (by simp)) hcp
        (fun y hy => hpins y (by simp [hy])) hw
      rw [specEdgeClock, if_neg hrise, if_pos hguard.1]
      exact hrec
    · rename_i hguard
      rw [Option.some_inj, Prod.mk.injEq, Prod.mk.injEq, Prod.mk.injEq] at hw
      obtain ⟨h1, h2, h3, h4⟩ := hw
      subst h1; subst h2; subst h3
      by_cases hrise : cp = 1 ∧ pp = 0
      · rw [specEdgeClock]
        simp [hrise.1, hrise.2]
      · have hE : ¬ (sub32 ct prevT < time) := by
          intro hEt
          rcases Decidable.not_and_iff_or_not.mp hguard with h | h
          · exact h hEt
          · omega
        rw [specEdgeClock]
        simp [hrise, hE]

/-- Bridge from `waituntil` to the edge scan: a terminating call returns 1
exactly when the scan recognises an edge, and in that case the clock the
scan reports is the one stored into `previoustime`. -/
lemma waituntil_specEdge (time : Nat) (s : Sys) (tr : Trace) (w : WU)
    (hpp : s.previouspinstate ≤ 1) (hpins : pinsOK tr)
    (hw : waituntil time s tr = some w) :
    (w.ret = 1 ∧ w.sys = ⟨0, w.sys.previoustime, 1⟩ ∧
      specEdgeClock time s.previoustime s.previouspinstate tr = some w.sys.previoustime) ∨
    (w.ret = 0 ∧ w.sys.state = s.state ∧
      w.sys.previoustime = u32 (s.previoustime + time) ∧
      specEdgeClock time s.previoustime s.previouspinstate tr = none) := by
  match tr with
  | [] => exact absurd hw (by simp [waituntil])
  | (t0, p0) :: rest =>
    rw [waituntil] at hw
    cases hwl : waitLoop time s.previoustime t0 p0 s.previouspinstate rest with
    | none => rw [hwl] at hw; exact absurd hw (by simp)
    | some q =>
      obtain ⟨ct, cp, pp, rem⟩ := q
      rw [hwl] at hw
      have hsp := waitLoop_specEdge time s.previoustime rest t0 p0
        s.previouspinstate ct cp pp rem (hpins (t0, p0) (by simp)) hpp
        (fun y hy => hpins y (by simp [hy])) hwl
      simp only at hw
      split at hw
      · rename_i hrise
        left
        have hw := Option.some_inj.mp hw
        subst hw
        rw [if_pos hrise] at hsp
        exact ⟨rfl, rfl, hsp⟩
      · rename_i hrise
        right
        have hw := Option.some_inj.mp hw
        subst hw
        rw [if_neg hrise] at hsp
        exact ⟨rfl, rfl, rfl, hsp⟩

lemma waitLoop_clock_mem (time prevT : Nat) :
    ∀ (tr : Trace) (ct cp pp ct' cp' pp' : Nat) (rem : Trace),
      waitLoop time prevT ct cp pp tr = some (ct', cp', pp', rem) →
      ct' = ct ∨ ct' ∈ tr.map Prod.fst := by
  intro tr
  induction tr with
  | nil =>
    intro ct cp pp ct' cp' pp' rem hw
    rw [waitLoop] at hw
    split at hw
    · exact absurd hw (by simp)
    · rw [Option.some_inj, Prod.mk.injEq, Prod.mk.injEq, Prod.mk.injEq] at hw
      exact Or.inl hw.1.symm
  | cons x rest ih =>
    intro ct cp pp ct' cp' pp' rem hw
    obtain ⟨t, p⟩ := x
    rw [waitLoop] at hw
    split at hw
    · rcases ih t p cp ct' cp' pp' rem hw with h | h
      · subst h
        exact Or.inr (by simp)
      · exact Or.inr (by simp [h])
    · rw [Option.some_inj, Prod.mk.injEq, Prod.mk.injEq, Prod.mk.injEq] at hw
      exact Or.inl hw.1.symm

lemma u32_u32_add (a b : Nat) : u32 (u32 a + b) = u32 (a + b) := by
  unfold u32
  exact Nat.mod_add_mod a 4294967296 b

/-- Claim C1, corrected.  `waituntil(budget)` returns SyncDetected (1) if
and only if a LOW-then-HIGH transition (with the stored
`previouspinstate` serving as the sample preceding the first poll) is
observed no later than the first poll at which the budget has elapsed;
equivalently, iff the spec-level edge scan `specEdgeClock` recognises an
edge.  In particular a pin that reads HIGH at entry and stays HIGH with
`previouspinstate` HIGH yields TimedOut.  The original "strictly before
the budget elapses" is refuted by `C1_counterexample`. -/
theorem C1_sync_iff_edge (time : Nat) (s : Sys) (tr : Trace) (w : WU)
    (hpp : s.previouspinstate ≤ 1) (hpins : pinsOK tr)
    (hw : waituntil time s tr = some w) :
    (w.ret = 0 ∨ w.ret = 1) ∧
    (w.ret = 1 ↔ (specEdgeClock time s.previoustime s.previouspinstate tr).isSome = true) := by
  rcases waituntil_specEdge time s tr w hpp hpins hw with ⟨h1, _, h3⟩ | ⟨h0, _, _, hnone⟩
  · exact ⟨Or.inr h1, by simp [h1, h3]⟩
  · exact ⟨Or.inl h0, by simp [h0, hnone]⟩

/-- Witness for C1: a concrete quiet call times out, matching the scan. -/
theorem C1_witness :
    (((⟨0, ⟨3, 25, 1⟩, []⟩ : WU).ret = 0 ∨ (⟨0, ⟨3, 25, 1⟩, []⟩ : WU).ret = 1) ∧
     ((⟨0, ⟨3, 25, 1⟩, []⟩ : WU).ret = 1 ↔
       (specEdgeClock 25 0 1 [(25, 0)]).isSome = true)) :=
  C1_sync_iff_edge 25 ⟨3, 0, 1⟩ [(25, 0)] ⟨0, ⟨3, 25, 1⟩, []⟩ (by decide) (by decide) (by decide)

/-- Counterexample to claim C1 as stated: with `previoustime = 0`,
`previouspinstate = 1` and budget 25, the poll trace samples LOW at
clock 0 and HIGH at clock 25.  The HIGH sample is observed exactly when
the budget elapses -- not strictly before -- yet `waituntil` returns
SyncDetected (1). -/
theorem C1_counterexample :
    (waituntil 25 ⟨7, 0, 1⟩ [(0, 0), (25, 1)]).map WU.ret = some 1 ∧
    ¬ specStrictEdge 25 0 1 [(0, 0), (25, 1)] := by decide

/-- Claim C2.  When no rising edge is recognised for the full budget
(the edge scan comes up empty), a terminating `waituntil(time)` returns
TimedOut (0) and advances `previoustime` by exactly `time` (as a uint32),
independent of the clock values observed while polling; `state` is left
unchanged. -/
theorem C2_timeout_advance (time : Nat) (s : Sys) (tr : Trace) (w : WU)
    (hpp : s.previouspinstate ≤ 1) (hpins : pinsOK tr)
    (hnoedge : specEdgeClock time s.previoustime s.previouspinstate tr = none)
    (hw : waituntil time s tr = some w) :
    w.ret = 0 ∧ w.sys.previoustime = u32 (s.previoustime + time) ∧ w.sys.state = s.state := by
  rcases waituntil_specEdge time s tr w hpp hpins hw with ⟨_, _, h3⟩ | ⟨h0, hst, hpt, _⟩
  · rw [hnoedge] at h3; exact absurd h3 (by simp)
  · exact ⟨h0, hpt, hst⟩

/-- Witness for C2: polling from baseline 0, the single sample at clock
1000 shows no edge; the call times out and the baseline becomes 25, not
1000. -/
theorem C2_witness :
    (⟨0, ⟨3, 25, 1⟩, []⟩ : WU).ret = 0 ∧
    (⟨0, ⟨3, 25, 1⟩, []⟩ : WU).sys.previoustime = u32 (0 + 25) ∧
    (⟨0, ⟨3, 25, 1⟩, []⟩ : WU).sys.state = (⟨3, 0, 1⟩ : Sys).state :=
  C2_timeout_advance 25 ⟨3, 0, 1⟩ [(1000, 0)] ⟨0, ⟨3, 25, 1⟩, []⟩
    (by decide) (by decide) (by decide) (by decide)

/-- Claim C5.  Whenever `waituntil` detects a rising edge (it returns 1),
it has set `state` to 0, set `previouspinstate` to 1, and set
`previoustime` to the clock value sampled in the same poll iteration as
the edge-detecting pin sample (the value the edge scan reports). -/
theorem C5_sync_effects (time : Nat) (s : Sys) (tr : Trace) (w : WU)
    (hpp : s.previouspinstate ≤ 1) (hpins : pinsOK tr)
    (hw : waituntil time s tr = some w) (hret : w.ret = 1) :
    w.sys.state = 0 ∧ w.sys.previouspinstate = 1 ∧
    specEdgeClock time s.previoustime s.previouspinstate tr = some w.sys.previoustime := by
  rcases waituntil_specEdge time s tr w hpp hpins hw with ⟨_, h2, h3⟩ | ⟨h0, _, _, _⟩
  · refine ⟨?_, ?_, h3⟩
    · rw [h2]
    · rw [h2]
  · rw [h0] at hret; exact absurd hret (by decide)

/-- Witness for C5: a stored LOW followed by a HIGH entry sample at clock
5 within the budget triggers detection with `previoustime = 5`. -/
theorem C5_witness :
    (⟨1, ⟨0, 5, 1⟩, []⟩ : WU).sys.state = 0 ∧
    (⟨1, ⟨0, 5, 1⟩, []⟩ : WU).sys.previouspinstate = 1 ∧
    specEdgeClock 25 0 0 [(5, 1)] = some (⟨1, ⟨0, 5, 1⟩, []⟩ : WU).sys.previoustime :=
  C5_sync_effects 25 ⟨5, 0, 0⟩ [(5, 1)] ⟨1, ⟨0, 5, 1⟩, []⟩
    (by decide) (by decide) (by decide) (by decide)

/-- Claim C8.  Under a monotonic clock the Timing Baseline only moves
forward, in the wraparound-safe sense: fix true (unbounded) instants --
a baseline instant `T0` with `previoustime = u32 T0`, and a list `Ts` of
true sample instants, all at or after `T0`, whose 32-bit truncations are
exactly the clock readings of the trace.  Then after a terminating
`waituntil` the stored baseline is pinned to a forward instant: on
timeout it equals `u32 (T0 + time)` (forward by exactly the budget), and
on sync detection it equals `u32 T` for one of the supplied sample
instants `T ∈ Ts` (so `T0 ≤ T`); after `syncpulse` it likewise equals
`u32 T` for a sample instant `T ∈ Ts`.  The conclusions name the exact
stored value, so a backward update (say writing 0) would falsify them. -/
theorem C8_previoustime_forward :
    (∀ (time : Nat) (s : Sys) (tr : Trace) (w : WU) (T0 : Nat) (Ts : List Nat),
      s.previoustime = u32 T0 →
      tr.map Prod.fst = Ts.map u32 →
      (∀ T ∈ Ts, T0 ≤ T) →
      waituntil time s tr = some w →
      (w.ret = 0 → w.sys.previoustime = u32 (T0 + time)) ∧
      (w.ret = 1 → ∃ T ∈ Ts, w.sys.previoustime = u32 T ∧ T0 ≤ T)) ∧
    (∀ (time : Nat) (s : Sys) (g : Regs) (tr : Trace) (c : Nat) (s1 : Sys)
      (g1 : Regs) (rem : Trace) (T0 : Nat) (Ts : List Nat),
      s.previoustime = u32 T0 →
      tr.map Prod.fst = Ts.map u32 →
      (∀ T ∈ Ts, T0 ≤ T) →
      syncpulse time s g tr = some (c, s1, g1, rem) →
      ∃ T ∈ Ts, s1.previoustime = u32 T ∧ T0 ≤ T) := by
  constructor
  · intro time s tr w T0 Ts hT0 hTs hmono hw
    match tr, hTs with
    | [], hTs => exact absurd hw (by simp [waituntil])
    | (t0, p0) :: rest, hTs =>
      rw [waituntil] at hw
      cases hwl : waitLoop time s.previoustime t0 p0 s.previouspinstate rest with
      | none => rw [hwl] at hw; exact absurd hw (by simp)
      | some q =>
        obtain ⟨ct, cp, pp, rem⟩ := q
        rw [hwl] at hw
        simp only at hw
        split at hw
        · have hw := Option.some_inj.mp hw
          subst hw
          have hmem : ct = t0 ∨ ct ∈ rest.map Prod.fst :=
            waitLoop_clock_mem time s.previoustime rest t0 p0
              s.previouspinstate ct cp pp rem hwl
          have hct : ct ∈ ((t0, p0) :: rest).map Prod.fst := by
            rcases hmem with h | h
            · subst h; simp
            · simp [h]
          rw [hTs] at hct
          obtain ⟨T, hTmem, hTeq⟩ := List.mem_map.mp hct
          constructor
          · intro h0
            simp at h0
          · intro _
            exact ⟨T, hTmem, hTeq.symm, hmono T hTmem⟩
        · have hw := Option.some_inj.mp hw
          subst hw
          constructor
          · intro _
            show u32 (s.previoustime + time) = u32 (T0 + time)
            rw [hT0, u32_u32_add]
          · intro h1
            simp at h1
  · intro time s g tr c s1 g1 rem T0 Ts hT0 hTs hmono hp
    match tr, hTs with
    | [], hTs => exact absurd hp (by simp [syncpulse])
    | (t0, q0) :: rest, hTs =>
      rw [syncpulse] at hp
      cases hpl : pulseLoop time t0 t0 rest with
      | none => rw [hpl] at hp; exact absurd hp (by simp)
      | some q =>
        obtain ⟨ct, rem2⟩ := q
        rw [hpl] at hp
        simp only [Option.some_inj, Prod.mk.injEq] at hp
        have ht0 : t0 ∈ ((t0, q0) :: rest).map Prod.fst := by simp
        rw [hTs] at ht0
        obtain ⟨T, hTmem, hTeq⟩ := List.mem_map.mp ht0
        have hs1 : s1 = { s with previoustime := t0 } := hp.2.1.symm
        refine ⟨T, hTmem, ?_, hmono T hTmem⟩
        rw [hs1]
        exact hTeq.symm

/-- Witness for C8: a timed-out wait from true baseline 0 with the single
sample instant 25 stores exactly `u32 (0 + 25)`, and a sync pulse whose
entry reading is the truncation of instant 40 stores exactly `u32 40`. -/
theorem C8_witness :
    (((⟨0, ⟨3, 25, 1⟩, []⟩ : WU).ret = 0 →
        (⟨0, ⟨3, 25, 1⟩, []⟩ : WU).sys.previoustime = u32 (0 + 25)) ∧
     ((⟨0, ⟨3, 25, 1⟩, []⟩ : WU).ret = 1 →
        ∃ T ∈ [25], (⟨0, ⟨3, 25, 1⟩, []⟩ : WU).sys.previoustime = u32 T ∧ 0 ≤ T)) ∧
    (∃ T ∈ [40, 80], (⟨7, 40, 2⟩ : Sys).previoustime = u32 T ∧ 0 ≤ T) :=
  ⟨C8_previoustime_forward.1 25 ⟨3, 0, 1⟩ [(25, 0)] ⟨0, ⟨3, 25, 1⟩, []⟩ 0 [25]
     (by decide) (by decide) (by decide) (by decide),
   C8_previoustime_forward.2 25 ⟨7, 0, 2⟩ setupRegs [(40, 0), (80, 0)] 80 ⟨7, 40, 2⟩
     setupRegs [] 0 [40, 80]
     (by decide) (by decide) (by decide) (by decide)⟩

/-! Pattern abort and scheduler-state lemmas. -/

lemma waituntil_ret_one (time : Nat) (s : Sys) (tr : Trace) (w : WU)
    (hw : waituntil time s tr = some w) (hret : w.ret = 1) :
    w.sys.state = 0 ∧ w.sys.previouspinstate = 1 := by
  match tr with
  | [] => exact absurd hw (by simp [waituntil])
  | (t0, p0) :: rest =>
    rw [waituntil] at hw
    cases hwl : waitLoop time s.previoustime t0 p0 s.previouspinstate rest with
    | none => rw [hwl] at hw; exact absurd hw (by simp)
    | some q =>
      obtain ⟨ct, cp, pp, rem⟩ := q
      rw [hwl] at hw
      simp only at hw
      split at hw
      · have hw := Option.some_inj.mp hw
        subst hw
        exact ⟨rfl, rfl⟩
      · have hw := Option.some_inj.mp hw
        subst hw
        simp at hret

lemma waituntil_state_or_zero (time : Nat) (s : Sys) (tr : Trace) (w : WU)
    (hw : waituntil time s tr = some w) :
    w.sys.state = s.state ∨ w.sys.state = 0 := by
  match tr with
  | [] => exact absurd hw (by simp [waituntil])
  | (t0, p0) :: rest =>
    rw [waituntil] at hw
    cases hwl : waitLoop time s.previoustime t0 p0 s.previouspinstate rest with
    | none => rw [hwl] at hw; exact absurd hw (by simp)
    | some q =>
      obtain ⟨ct, cp, pp, rem⟩ := q
      rw [hwl] at hw
      simp only at hw
      split at hw
      · have hw := Option.some_inj.mp hw
        subst hw
        exact Or.inr rfl
      · have hw := Option.some_inj.mp hw
        subst hw
        exact Or.inl rfl

lemma runSteps_abort :
    ∀ (steps : List (Int × Int)) (s : Sys) (g : Regs) (tr : Trace)
      (s1 : Sys) (g1 : Regs) (tr1 : Trace),
      runSteps steps s g tr = some (true, s1, g1, tr1) →
      s1.state = 0 ∧ ∃ l r g0 s0 tr0, (l, r) ∈ steps ∧ g1 = setled l r g0 ∧
        waituntil 25 s0 tr0 = some ⟨1, s1, tr1⟩ := by
  intro steps
  induction steps with
  | nil =>
    intro s g tr s1 g1 tr1 h
    exact absurd h (by simp [runSteps])
  | cons x steps ih =>
    intro s g tr s1 g1 tr1 h
    obtain ⟨l, r⟩ := x
    rw [runSteps] at h
    cases hwu : waituntil 25 s tr with
    | none => rw [hwu] at h; exact absurd h (by simp)
    | some w =>
      rw [hwu] at h
      simp only at h
      split at h
      · rename_i hret
        simp only [Option.some_inj, Prod.mk.injEq] at h
        obtain ⟨-, hs, hg, ht⟩ := h
        have hweq : w = ⟨1, s1, tr1⟩ := by
          cases w
          simp only [WU.mk.injEq]
          exact ⟨hret, hs, ht⟩
        rw [hweq] at hwu
        refine ⟨?_, l, r, g, s, tr, by simp, hg.symm, hwu⟩
        exact (waituntil_ret_one 25 s tr ⟨1, s1, tr1⟩ hwu rfl).1
      · obtain ⟨h0, l2, r2, g0, s0, tr0, hm, hgg, hww⟩ := ih w.sys (setled l r g) w.rest s1 g1 tr1 h
        exact ⟨h0, l2, r2, g0, s0, tr0, by simp [hm], hgg, hww⟩

lemma playRepeats_abort (steps : List (Int × Int)) :
    ∀ (n : Nat) (s : Sys) (g : Regs) (tr : Trace) (s1 : Sys) (g1 : Regs) (tr1 : Trace),
      playRepeats steps n s g tr = some (true, s1, g1, tr1) →
      s1.state = 0 ∧ ∃ l r g0 s0 tr0, (l, r) ∈ steps ∧ g1 = setled l r g0 ∧
        waituntil 25 s0 tr0 = some ⟨1, s1, tr1⟩ := by
  intro n
  induction n with
  | zero =>
    intro s g tr s1 g1 tr1 h
    exact absurd h (by simp [playRepeats])
  | succ m ih =>
    intro s g tr s1 g1 tr1 h
    rw [playRepeats] at h
    cases hrs : runSteps steps s g tr with
    | none => rw [hrs] at h; exact absurd h (by simp)
    | some o =>
      obtain ⟨b, s2, g2, tr2⟩ := o
      rw [hrs] at h
      cases b with
      | true =>
        simp only [Option.some_inj, Prod.mk.injEq] at h
        obtain ⟨-, hs, hg, ht⟩ := h
        rw [← hs, ← hg, ← ht]
        exact runSteps_abort steps s g tr s2 g2 tr2 hrs
      | false =>
        exact ih s2 g2 tr2 s1 g1 tr1 h

lemma runSteps_state_or_zero :
    ∀ (steps : List (Int × Int)) (s : Sys) (g : Regs) (tr : Trace)
      (b : Bool) (s1 : Sys) (g1 : Regs) (tr1 : Trace),
      runSteps steps s g tr = some (b, s1, g1, tr1) →
      s1.state = s.state ∨ s1.state = 0 := by
  intro steps
  induction steps with
  | nil =>
    intro s g tr b s1 g1 tr1 h
    simp only [runSteps, Option.some_inj, Prod.mk.injEq] at h
    exact Or.inl (by rw [← h.2.1])
  | cons x steps ih =>
    intro s g tr b s1 g1 tr1 h
    obtain ⟨l, r⟩ := x
    rw [runSteps] at h
    cases hwu : waituntil 25 s tr with
    | none => rw [hwu] at h; exact absurd h (by simp)
    | some w =>
      rw [hwu] at h
      simp only at h
      split at h
      · rename_i hret
        simp only [Option.some_inj, Prod.mk.injEq] at h
        have h1 := (waituntil_ret_one 25 s tr w hwu hret).1
        rw [← h.2.1]
        exact Or.inr h1
      · have h2 := ih w.sys (setled l r g) w.rest b s1 g1 tr1 h
        have h3 := waituntil_state_or_zero 25 s tr w hwu
        rcases h2 with h2 | h2
        · rw [h2]; exact h3
        · exact Or.inr h2

lemma playRepeats_state_or_zero (steps : List (Int × Int)) :
    ∀ (n : Nat) (s : Sys) (g : Regs) (tr : Trace)
      (b : Bool) (s1 : Sys) (g1 : Regs) (tr1 : Trace),
      playRepeats steps n s g tr = some (b, s1, g1, tr1) →
      s1.state = s.state ∨ s1.state = 0 := by
  intro n
  induction n with
  | zero =>
    intro s g tr b s1 g1 tr1 h
    simp only [playRepeats, Option.some_inj, Prod.mk.injEq] at h
    exact Or.inl (by rw [← h.2.1])
  | succ m ih =>
    intro s g tr b s1 g1 tr1 h
    rw [playRepeats] at h
    cases hrs : runSteps steps s g tr with
    | none => rw [hrs] at h; exact absurd h (by simp)
    | some o =>
      obtain ⟨b2, s2, g2, tr2⟩ := o
      rw [hrs] at h
      have h3 := runSteps_state_or_zero steps s g tr b2 s2 g2 tr2 hrs
      cases b2 with
      | true =>
        simp only [Option.some_inj, Prod.mk.injEq] at h
        rw [← h.2.1]
        exact h3
      | false =>
        have h2 := ih s2 g2 tr2 b s1 g1 tr1 h
        rcases h2 with h2 | h2
        · rw [h2]; exact h3
        · exact Or.inr h2

lemma dispatch_state_le (steps : List (Int × Int)) (n : Nat) (s1 : Sys) (g : Regs)
    (tr : Trace) (a : TickAct) (out : TickAct × Sys × Regs × Trace)
    (hle : s1.state ≤ 8)
    (h : (playRepeats steps n s1 g tr).map (fun o => (a, o.2.1, o.2.2.1, o.2.2.2)) = some out) :
    out.2.1.state ≤ 8 := by
  rcases Option.map_eq_some'.mp h with ⟨⟨b, s2, g2, tr2⟩, ho, hfo⟩
  subst hfo
  have hst := playRepeats_state_or_zero steps n s1 g tr b s2 g2 tr2 ho
  simp only
  rcases hst with h1 | h1 <;> omega

lemma loop_state_le (s : Sys) (g : Regs) (tr : Trace)
    (out : TickAct × Sys × Regs × Trace)
    (_hs : s.state ≤ 8) (h : loop s g tr = some out) :
    out.2.1.state ≤ 8 := by
  simp only [loop, singleledccw, singleledcw, twoledsccw, twoledscw, twoledsflapdown,
    twoledsflapup, twoledsflap, twoledsrandom] at h
  split at h
  · exact dispatch_state_le _ _ _ _ _ _ _ (by rename_i heq; simp [heq]) h
  · exact dispatch_state_le _ _ _ _ _ _ _ (by rename_i heq; simp [heq]) h
  · exact dispatch_state_le _ _ _ _ _ _ _ (by rename_i heq; simp [heq]) h
  · exact dispatch_state_le _ _ _ _ _ _ _ (by rename_i heq; simp [heq]) h
  · exact dispatch_state_le _ _ _ _ _ _ _ (by rename_i heq; simp [heq]) h
  · exact dispatch_state_le _ _ _ _ _ _ _ (by rename_i heq; simp [heq]) h
  · exact dispatch_state_le _ _ _ _ _ _ _ (by rename_i heq; simp [heq]) h
  · exact dispatch_state_le _ _ _ _ _ _ _ (by rename_i heq; simp [heq]) h
  · rcases Option.map_eq_some'.mp h with ⟨⟨c, s2, g2, tr2⟩, ho, hfo⟩
    subst hfo
    simp

lemma runTicks_state_le :
    ∀ (n : Nat) (s : Sys) (g : Regs) (tr : Trace)
      (out : List TickAct × Sys × Regs × Trace),
      s.state ≤ 8 → runTicks n s g tr = some out → out.2.1.state ≤ 8 := by
  intro n
  induction n with
  | zero =>
    intro s g tr out hs h
    simp only [runTicks, Option.some_inj] at h
    rw [← h]
    exact hs
  | succ m ih =>
    intro s g tr out hs h
    rw [runTicks] at h
    cases hl : loop s g tr with
    | none => rw [hl] at h; exact absurd h (by simp)
    | some o =>
      obtain ⟨a, s1, g1, tr1⟩ := o
      rw [hl] at h
      simp only at h
      have h1 : s1.state ≤ 8 := loop_state_le s g tr (a, s1, g1, tr1) hs hl
      cases hrt : runTicks m s1 g1 tr1 with
      | none => rw [hrt] at h; exact absurd h (by simp)
      | some o2 =>
        obtain ⟨as2, s2, g2, tr2⟩ := o2
        rw [hrt] at h
        simp only at h
        have h2 := ih s1 g1 tr1 (as2, s2, g2, tr2) h1 hrt
        simp only [Option.some_inj] at h
        rw [← h]
        exact h2

/-- Claim C4.  For every built-in pattern, every repeat count and every
input, if the pattern function is cut short by the Step Waiter reporting
SyncDetected (abort flag `true`), then at the moment it returns the
Sequence State is 0, and the returned machine state is verbatim the
output of the single `waituntil` call that reported the sync (so no
further step or repeat was executed): the LED registers still show some
step of the pattern and the residual trace is exactly what that
`waituntil` call left. -/
theorem C4_pattern_abort (steps : List (Int × Int)) (_hsteps : steps ∈ builtinSteps)
    (n : Nat) (s : Sys) (g : Regs) (tr : Trace) (s1 : Sys) (g1 : Regs) (tr1 : Trace)
    (h : playRepeats steps n s g tr = some (true, s1, g1, tr1)) :
    s1.state = 0 ∧ ∃ l r g0 s0 tr0, (l, r) ∈ steps ∧ g1 = setled l r g0 ∧
      waituntil 25 s0 tr0 = some ⟨1, s1, tr1⟩ :=
  playRepeats_abort steps n s g tr s1 g1 tr1 h

/-- Witness for C4: `singleledccw(1)` aborted by a sync edge at its very
first step. -/
theorem C4_witness :
    (⟨0, 3, 1⟩ : Sys).state = 0 ∧ ∃ l r g0 s0 tr0, (l, r) ∈ singleledccwSteps ∧
      setled 0 20 setupRegs = setled l r g0 ∧
      waituntil 25 s0 tr0 = some ⟨1, ⟨0, 3, 1⟩, []⟩ :=
  C4_pattern_abort singleledccwSteps (by unfold builtinSteps; exact List.mem_cons_self _ _)
    1 ⟨5, 0, 0⟩ setupRegs [(3, 1)] ⟨0, 3, 1⟩ (setled 0 20 setupRegs) [] (by decide)

/-- Claim C10.  Reachable-state invariant for the Sequence State: a
terminating `waituntil` either leaves `state` unchanged or writes 0; one
`loop` tick from `state ≤ 8` ends with `state ≤ 8` (internally the
pre-increment reaches at most 9, and the default branch resets it); and
any number of ticks from the `setup()` state keeps `state ≤ 8` at every
entry to `loop`. -/
theorem C10_state_invariant :
    (∀ (time : Nat) (s : Sys) (tr : Trace) (w : WU),
      waituntil time s tr = some w → w.sys.state = s.state ∨ w.sys.state = 0) ∧
    (∀ (s : Sys) (g : Regs) (tr : Trace) (out : TickAct × Sys × Regs × Trace),
      s.state ≤ 8 → loop s g tr = some out → out.2.1.state ≤ 8) ∧
    (∀ (n : Nat) (g : Regs) (tr : Trace) (out : List TickAct × Sys × Regs × Trace),
      runTicks n setupSys g tr = some out → out.2.1.state ≤ 8) :=
  ⟨waituntil_state_or_zero,
   loop_state_le,
   fun n g tr out h => runTicks_state_le n setupSys g tr out (by decide) h⟩

/-- Witness for C10: the three conjuncts applied to a quiet timed-out
wait, a tick from state 8 (which pulses and resets), and zero ticks from
the setup state. -/
theorem C10_witness :
    ((⟨3, 25, 1⟩ : Sys).state = (⟨3, 0, 1⟩ : Sys).state ∨ (⟨3, 25, 1⟩ : Sys).state = 0) ∧
    ((TickAct.pulse 80, (⟨0, 40, 1⟩ : Sys), (⟨0, 0, 8, 0⟩ : Regs), ([] : Trace)).2.1.state ≤ 8) ∧
    ((([] : List TickAct), setupSys, setupRegs, ([(5, 0)] : Trace)).2.1.state ≤ 8) :=
  ⟨C10_state_invariant.1 25 ⟨3, 0, 1⟩ [(25, 0)] ⟨0, ⟨3, 25, 1⟩, []⟩ (by decide),
   C10_state_invariant.2.1 ⟨8, 0, 1⟩ ⟨0, 0, 8, 0⟩ [(40, 0), (80, 0)]
     (TickAct.pulse 80, ⟨0, 40, 1⟩, ⟨0, 0, 8, 0⟩, []) (by decide) (by decide),
   C10_state_invariant.2.2 0 setupRegs [(5, 0)] ([], setupSys, setupRegs, [(5, 0)]) (by decide)⟩

/-! Sentinel behaviour of `setled`. -/

lemma setledLeft_id (l : Int) (g : Regs) (hl : 21 ≤ l) : setledLeft l g = g := by
  unfold setledLeft
  rw [if_neg (Int.not_lt.mpr hl)]

lemma setledRight_id (r : Int) (g : Regs) (hr : 21 ≤ r) : setledRight r g = g := by
  unfold setledRight
  rw [if_neg (Int.not_lt.mpr hr)]

lemma setledLeft_off (g : Regs) : setledLeft 20 g = clearLeft g := by
  simp [setledLeft, driveLeft]

lemma setledRight_off (g : Regs) : setledRight 20 g = clearRight g := by
  simp [setledRight, driveRight]

lemma driveRight_keeps_left_bits (r : Int) (g1 : Regs) :
    (driveRight r g1).PAC.testBit 7 = g1.PAC.testBit 7 ∧
    (driveRight r g1).PBC.testBit 4 = g1.PBC.testBit 4 ∧
    (driveRight r g1).PBC.testBit 5 = g1.PBC.testBit 5 ∧
    (driveRight r g1).PBC.testBit 6 = g1.PBC.testBit 6 ∧
    (driveRight r g1).PBC.testBit 7 = g1.PBC.testBit 7 := by
  unfold driveRight
  by_cases h0 : r = 0
  · subst h0
    simp [show Nat.testBit 254 7 = true from by decide, show Nat.testBit 240 4 = true from by decide, show Nat.testBit 240 5 = true from by decide, show Nat.testBit 240 6 = true from by decide, show Nat.testBit 240 7 = true from by decide, show Nat.testBit 8 4 = false from by decide, show Nat.testBit 8 5 = false from by decide, show Nat.testBit 8 6 = false from by decide, show Nat.testBit 8 7 = false from by decide, show Nat.testBit 4 4 = false from by decide, show Nat.testBit 4 5 = false from by decide, show Nat.testBit 4 6 = false from by decide, show Nat.testBit 4 7 = false from by decide, show Nat.testBit 2 4 = false from by decide, show Nat.testBit 2 5 = false from by decide, show Nat.testBit 2 6 = false from by decide, show Nat.testBit 2 7 = false from by decide, show Nat.testBit 1 4 = false from by decide, show Nat.testBit 1 5 = false from by decide, show Nat.testBit 1 6 = false from by decide, show Nat.testBit 1 7 = false from by decide, show Nat.testBit 1 7 = false from by decide]
  by_cases h1 : r = 1
  · subst h1
    simp [show Nat.testBit 254 7 = true from by decide, show Nat.testBit 240 4 = true from by decide, show Nat.testBit 240 5 = true from by decide, show Nat.testBit 240 6 = true from by decide, show Nat.testBit 240 7 = true from by decide, show Nat.testBit 8 4 = false from by decide, show Nat.testBit 8 5 = false from by decide, show Nat.testBit 8 6 = false from by decide, show Nat.testBit 8 7 = false from by decide, show Nat.testBit 4 4 = false from by decide, show Nat.testBit 4 5 = false from by decide, show Nat.testBit 4 6 = false from by decide, show Nat.testBit 4 7 = false from by decide, show Nat.testBit 2 4 = false from by decide, show Nat.testBit 2 5 = false from by decide, show Nat.testBit 2 6 = false from by decide, show Nat.testBit 2 7 = false from by decide, show Nat.testBit 1 4 = false from by decide, show Nat.testBit 1 5 = false from by decide, show Nat.testBit 1 6 = false from by decide, show Nat.testBit 1 7 = false from by decide, show Nat.testBit 1 7 = false from by decide]
  by_cases h2 : r = 2
  · subst h2
    simp [show Nat.testBit 254 7 = true from by decide, show Nat.testBit 240 4 = true from by decide, show Nat.testBit 240 5 = true from by decide, show Nat.testBit 240 6 = true from by decide, show Nat.testBit 240 7 = true from by decide, show Nat.testBit 8 4 = false from by decide, show Nat.testBit 8 5 = false from by decide, show Nat.testBit 8 6 = false from by decide, show Nat.testBit 8 7 = false from by decide, show Nat.testBit 4 4 = false from by decide, show Nat.testBit 4 5 = false from by decide, show Nat.testBit 4 6 = false from by decide, show Nat.testBit 4 7 = false from by decide, show Nat.testBit 2 4 = false from by decide, show Nat.testBit 2 5 = false from by decide, show Nat.testBit 2 6 = false from by decide, show Nat.testBit 2 7 = false from by decide, show Nat.testBit 1 4 = false from by decide, show Nat.testBit 1 5 = false from by decide, show Nat.testBit 1 6 = false from by decide, show Nat.testBit 1 7 = false from by decide, show Nat.testBit 1 7 = false from by decide]
  by_cases h3 : r = 3
  · subst h3
    simp [show Nat.testBit 254 7 = true from by decide, show Nat.testBit 240 4 = true from by decide, show Nat.testBit 240 5 = true from by decide, show Nat.testBit 240 6 = true from by decide, show Nat.testBit 240 7 = true from by decide, show Nat.testBit 8 4 = false from by decide, show Nat.testBit 8 5 = false from by decide, show Nat.testBit 8 6 = false from by decide, show Nat.testBit 8 7 = false from by decide, show Nat.testBit 4 4 = false from by decide, show Nat.testBit 4 5 = false from by decide, show Nat.testBit 4 6 = false from by decide, show Nat.testBit 4 7 = false from by decide, show Nat.testBit 2 4 = false from by decide, show Nat.testBit 2 5 = false from by decide, show Nat.testBit 2 6 = false from by decide, show Nat.testBit 2 7 = false from by decide, show Nat.testBit 1 4 = false from by decide, show Nat.testBit 1 5 = false from by decide, show Nat.testBit 1 6 = false from by decide, show Nat.testBit 1 7 = false from by decide, show Nat.testBit 1 7 = false from by decide]
  by_cases h4 : r = 4
  · subst h4
    simp [show Nat.testBit 254 7 = true from by decide, show Nat.testBit 240 4 = true from by decide, show Nat.testBit 240 5 = true from by decide, show Nat.testBit 240 6 = true from by decide, show Nat.testBit 240 7 = true from by decide, show Nat.testBit 8 4 = false from by decide, show Nat.testBit 8 5 = false from by decide, show Nat.testBit 8 6 = false from by decide, show Nat.testBit 8 7 = false from by decide, show Nat.testBit 4 4 = false from by decide, show Nat.testBit 4 5 = false from by decide, show Nat.testBit 4 6 = false from by decide, show Nat.testBit 4 7 = false from by decide, show Nat.testBit 2 4 = false from by decide, show Nat.testBit 2 5 = false from by decide, show Nat.testBit 2 6 = false from by decide, show Nat.testBit 2 7 = false from by decide, show Nat.testBit 1 4 = false from by decide, show Nat.testBit 1 5 = false from by decide, show Nat.testBit 1 6 = false from by decide, show Nat.testBit 1 7 = false from by decide, show Nat.testBit 1 7 = false from by decide]
  by_cases h5 : r = 5
  · subst h5
    simp [show Nat.testBit 254 7 = true from by decide, show Nat.testBit 240 4 = true from by decide, show Nat.testBit 240 5 = true from by decide, show Nat.testBit 240 6 = true from by decide, show Nat.testBit 240 7 = true from by decide, show Nat.testBit 8 4 = false from by decide, show Nat.testBit 8 5 = false from by decide, show Nat.testBit 8 6 = false from by decide, show Nat.testBit 8 7 = false from by decide, show Nat.testBit 4 4 = false from by decide, show Nat.testBit 4 5 = false from by decide, show Nat.testBit 4 6 = false from by decide, show Nat.testBit 4 7 = false from by decide, show Nat.testBit 2 4 = false from by decide, show Nat.testBit 2 5 = false from by decide, show Nat.testBit 2 6 = false from by decide, show Nat.testBit 2 7 = false from by decide, show Nat.testBit 1 4 = false from by decide, show Nat.testBit 1 5 = false from by decide, show Nat.testBit 1 6 = false from by decide, show Nat.testBit 1 7 = false from by decide, show Nat.testBit 1 7 = false from by decide]
  by_cases h6 : r = 6
  · subst h6
    simp [show Nat.testBit 254 7 = true from by decide, show Nat.testBit 240 4 = true from by decide, show Nat.testBit 240 5 = true from by decide, show Nat.testBit 240 6 = true from by decide, show Nat.testBit 240 7 = true from by decide, show Nat.testBit 8 4 = false from by decide, show Nat.testBit 8 5 = false from by decide, show Nat.testBit 8 6 = false from by decide, show Nat.testBit 8 7 = false from by decide, show Nat.testBit 4 4 = false from by decide, show Nat.testBit 4 5 = false from by decide, show Nat.testBit 4 6 = false from by decide, show Nat.testBit 4 7 = false from by decide, show Nat.testBit 2 4 = false from by decide, show Nat.testBit 2 5 = false from by decide, show Nat.testBit 2 6 = false from by decide, show Nat.testBit 2 7 = false from by decide, show Nat.testBit 1 4 = false from by decide, show Nat.testBit 1 5 = false from by decide, show Nat.testBit 1 6 = false from by decide, show Nat.testBit 1 7 = false from by decide, show Nat.testBit 1 7 = false from by decide]
  by_cases h7 : r = 7
  · subst h7
    simp [show Nat.testBit 254 7 = true from by decide, show Nat.testBit 240 4 = true from by decide, show Nat.testBit 240 5 = true from by decide, show Nat.testBit 240 6 = true from by decide, show Nat.testBit 240 7 = true from by decide, show Nat.testBit 8 4 = false from by decide, show Nat.testBit 8 5 = false from by decide, show Nat.testBit 8 6 = false from by decide, show Nat.testBit 8 7 = false from by decide, show Nat.testBit 4 4 = false from by decide, show Nat.testBit 4 5 = false from by decide, show Nat.testBit 4 6 = false from by decide, show Nat.testBit 4 7 = false from by decide, show Nat.testBit 2 4 = false from by decide, show Nat.testBit 2 5 = false from by decide, show Nat.testBit 2 6 = false from by decide, show Nat.testBit 2 7 = false from by decide, show Nat.testBit 1 4 = false from by decide, show Nat.testBit 1 5 = false from by decide, show Nat.testBit 1 6 = false from by decide, show Nat.testBit 1 7 = false from by decide, show Nat.testBit 1 7 = false from by decide]
  by_cases h8 : r = 8
  · subst h8
    simp [show Nat.testBit 254 7 = true from by decide, show Nat.testBit 240 4 = true from by decide, show Nat.testBit 240 5 = true from by decide, show Nat.testBit 240 6 = true from by decide, show Nat.testBit 240 7 = true from by decide, show Nat.testBit 8 4 = false from by decide, show Nat.testBit 8 5 = false from by decide, show Nat.testBit 8 6 = false from by decide, show Nat.testBit 8 7 = false from by decide, show Nat.testBit 4 4 = false from by decide, show Nat.testBit 4 5 = false from by decide, show Nat.testBit 4 6 = false from by decide, show Nat.testBit 4 7 = false from by decide, show Nat.testBit 2 4 = false from by decide, show Nat.testBit 2 5 = false from by decide, show Nat.testBit 2 6 = false from by decide, show Nat.testBit 2 7 = false from by decide, show Nat.testBit 1 4 = false from by decide, show Nat.testBit 1 5 = false from by decide, show Nat.testBit 1 6 = false from by decide, show Nat.testBit 1 7 = false from by decide, show Nat.testBit 1 7 = false from by decide]
  by_cases h9 : r = 9
  · subst h9
    simp [show Nat.testBit 254 7 = true from by decide, show Nat.testBit 240 4 = true from by decide, show Nat.testBit 240 5 = true from by decide, show Nat.testBit 240 6 = true from by decide, show Nat.testBit 240 7 = true from by decide, show Nat.testBit 8 4 = false from by decide, show Nat.testBit 8 5 = false from by decide, show Nat.testBit 8 6 = false from by decide, show Nat.testBit 8 7 = false from by decide, show Nat.testBit 4 4 = false from by decide, show Nat.testBit 4 5 = false from by decide, show Nat.testBit 4 6 = false from by decide, show Nat.testBit 4 7 = false from by decide, show Nat.testBit 2 4 = false from by decide, show Nat.testBit 2 5 = false from by decide, show Nat.testBit 2 6 = false from by decide, show Nat.testBit 2 7 = false from by decide, show Nat.testBit 1 4 = false from by decide, show Nat.testBit 1 5 = false from by decide, show Nat.testBit 1 6 = false from by decide, show Nat.testBit 1 7 = false from by decide, show Nat.testBit 1 7 = false from by decide]
  by_cases h10 : r = 10
  · subst h10
    simp [show Nat.testBit 254 7 = true from by decide, show Nat.testBit 240 4 = true from by decide, show Nat.testBit 240 5 = true from by decide, show Nat.testBit 240 6 = true from by decide, show Nat.testBit 240 7 = true from by decide, show Nat.testBit 8 4 = false from by decide, show Nat.testBit 8 5 = false from by decide, show Nat.testBit 8 6 = false from by decide, show Nat.testBit 8 7 = false from by decide, show Nat.testBit 4 4 = false from by decide, show Nat.testBit 4 5 = false from by decide, show Nat.testBit 4 6 = false from by decide, show Nat.testBit 4 7 = false from by decide, show Nat.testBit 2 4 = false from by decide, show Nat.testBit 2 5 = false from by decide, show Nat.testBit 2 6 = false from by decide, show Nat.testBit 2 7 = false from by decide, show Nat.testBit 1 4 = false from by decide, show Nat.testBit 1 5 = false from by decide, show Nat.testBit 1 6 = false from by decide, show Nat.testBit 1 7 = false from by decide, show Nat.testBit 1 7 = false from by decide]
  by_cases h11 : r = 11
  · subst h11
    simp [show Nat.testBit 254 7 = true from by decide, show Nat.testBit 240 4 = true from by decide, show Nat.testBit 240 5 = true from by decide, show Nat.testBit 240 6 = true from by decide, show Nat.testBit 240 7 = true from by decide, show Nat.testBit 8 4 = false from by decide, show Nat.testBit 8 5 = false from by decide, show Nat.testBit 8 6 = false from by decide, show Nat.testBit 8 7 = false from by decide, show Nat.testBit 4 4 = false from by decide, show Nat.testBit 4 5 = false from by decide, show Nat.testBit 4 6 = false from by decide, show Nat.testBit 4 7 = false from by decide, show Nat.testBit 2 4 = false from by decide, show Nat.testBit 2 5 = false from by decide, show Nat.testBit 2 6 = false from by decide, show Nat.testBit 2 7 = false from by decide, show Nat.testBit 1 4 = false from by decide, show Nat.testBit 1 5 = false from by decide, show Nat.testBit 1 6 = false from by decide, show Nat.testBit 1 7 = false from by decide, show Nat.testBit 1 7 = false from by decide]
  by_cases h12 : r = 12
  · subst h12
    simp [show Nat.testBit 254 7 = true from by decide, show Nat.testBit 240 4 = true from by decide, show Nat.testBit 240 5 = true from by decide, show Nat.testBit 240 6 = true from by decide, show Nat.testBit 240 7 = true from by decide, show Nat.testBit 8 4 = false from by decide, show Nat.testBit 8 5 = false from by decide, show Nat.testBit 8 6 = false from by decide, show Nat.testBit 8 7 = false from by decide, show Nat.testBit 4 4 = false from by decide, show Nat.testBit 4 5 = false from by decide, show Nat.testBit 4 6 = false from by decide, show Nat.testBit 4 7 = false from by decide, show Nat.testBit 2 4 = false from by decide, show Nat.testBit 2 5 = false from by decide, show Nat.testBit 2 6 = false from by decide, show Nat.testBit 2 7 = false from by decide, show Nat.testBit 1 4 = false from by decide, show Nat.testBit 1 5 = false from by decide, show Nat.testBit 1 6 = false from by decide, show Nat.testBit 1 7 = false from by decide, show Nat.testBit 1 7 = false from by decide]
  by_cases h13 : r = 13
  · subst h13
    simp [show Nat.testBit 254 7 = true from by decide, show Nat.testBit 240 4 = true from by decide, show Nat.testBit 240 5 = true from by decide, show Nat.testBit 240 6 = true from by decide, show Nat.testBit 240 7 = true from by decide, show Nat.testBit 8 4 = false from by decide, show Nat.testBit 8 5 = false from by decide, show Nat.testBit 8 6 = false from by decide, show Nat.testBit 8 7 = false from by decide, show Nat.testBit 4 4 = false from by decide, show Nat.testBit 4 5 = false from by decide, show Nat.testBit 4 6 = false from by decide, show Nat.testBit 4 7 = false from by decide, show Nat.testBit 2 4 = false from by decide, show Nat.testBit 2 5 = false from by decide, show Nat.testBit 2 6 = false from by decide, show Nat.testBit 2 7 = false from by decide, show Nat.testBit 1 4 = false from by decide, show Nat.testBit 1 5 = false from by decide, show Nat.testBit 1 6 = false from by decide, show Nat.testBit 1 7 = false from by decide, show Nat.testBit 1 7 = false from by decide]
  by_cases h14 : r = 14
  · subst h14
    simp [show Nat.testBit 254 7 = true from by decide, show Nat.testBit 240 4 = true from by decide, show Nat.testBit 240 5 = true from by decide, show Nat.testBit 240 6 = true from by decide, show Nat.testBit 240 7 = true from by decide, show Nat.testBit 8 4 = false from by decide, show Nat.testBit 8 5 = false from by decide, show Nat.testBit 8 6 = false from by decide, show Nat.testBit 8 7 = false from by decide, show Nat.testBit 4 4 = false from by decide, show Nat.testBit 4 5 = false from by decide, show Nat.testBit 4 6 = false from by decide, show Nat.testBit 4 7 = false from by decide, show Nat.testBit 2 4 = false from by decide, show Nat.testBit 2 5 = false from by decide, show Nat.testBit 2 6 = false from by decide, show Nat.testBit 2 7 = false from by decide, show Nat.testBit 1 4 = false from by decide, show Nat.testBit 1 5 = false from by decide, show Nat.testBit 1 6 = false from by decide, show Nat.testBit 1 7 = false from by decide, show Nat.testBit 1 7 = false from by decide]
  by_cases h15 : r = 15
  · subst h15
    simp [show Nat.testBit 254 7 = true from by decide, show Nat.testBit 240 4 = true from by decide, show Nat.testBit 240 5 = true from by decide, show Nat.testBit 240 6 = true from by decide, show Nat.testBit 240 7 = true from by decide, show Nat.testBit 8 4 = false from by decide, show Nat.testBit 8 5 = false from by decide, show Nat.testBit 8 6 = false from by decide, show Nat.testBit 8 7 = false from by decide, show Nat.testBit 4 4 = false from by decide, show Nat.testBit 4 5 = false from by decide, show Nat.testBit 4 6 = false from by decide, show Nat.testBit 4 7 = false from by decide, show Nat.testBit 2 4 = false from by decide, show Nat.testBit 2 5 = false from by decide, show Nat.testBit 2 6 = false from by decide, show Nat.testBit 2 7 = false from by decide, show Nat.testBit 1 4 = false from by decide, show Nat.testBit 1 5 = false from by decide, show Nat.testBit 1 6 = false from by decide, show Nat.testBit 1 7 = false from by decide, show Nat.testBit 1 7 = false from by decide]
  by_cases h16 : r = 16
  · subst h16
    simp [show Nat.testBit 254 7 = true from by decide, show Nat.testBit 240 4 = true from by decide, show Nat.testBit 240 5 = true from by decide, show Nat.testBit 240 6 = true from by decide, show Nat.testBit 240 7 = true from by decide, show Nat.testBit 8 4 = false from by decide, show Nat.testBit 8 5 = false from by decide, show Nat.testBit 8 6 = false from by decide, show Nat.testBit 8 7 = false from by decide, show Nat.testBit 4 4 = false from by decide, show Nat.testBit 4 5 = false from by decide, show Nat.testBit 4 6 = false from by decide, show Nat.testBit 4 7 = false from by decide, show Nat.testBit 2 4 = false from by decide, show Nat.testBit 2 5 = false from by decide, show Nat.testBit 2 6 = false from by decide, show Nat.testBit 2 7 = false from by decide, show Nat.testBit 1 4 = false from by decide, show Nat.testBit 1 5 = false from by decide, show Nat.testBit 1 6 = false from by decide, show Nat.testBit 1 7 = false from by decide, show Nat.testBit 1 7 = false from by decide]
  by_cases h17 : r = 17
  · subst h17
    simp [show Nat.testBit 254 7 = true from by decide, show Nat.testBit 240 4 = true from by decide, show Nat.testBit 240 5 = true from by decide, show Nat.testBit 240 6 = true from by decide, show Nat.testBit 240 7 = true from by decide, show Nat.testBit 8 4 = false from by decide, show Nat.testBit 8 5 = false from by decide, show Nat.testBit 8 6 = false from by decide, show Nat.testBit 8 7 = false from by decide, show Nat.testBit 4 4 = false from by decide, show Nat.testBit 4 5 = false from by decide, show Nat.testBit 4 6 = false from by decide, show Nat.testBit 4 7 = false from by decide, show Nat.testBit 2 4 = false from by decide, show Nat.testBit 2 5 = false from by decide, show Nat.testBit 2 6 = false from by decide, show Nat.testBit 2 7 = false from by decide, show Nat.testBit 1 4 = false from by decide, show Nat.testBit 1 5 = false from by decide, show Nat.testBit 1 6 = false from by decide, show Nat.testBit 1 7 = false from by decide, show Nat.testBit 1 7 = false from by decide]
  by_cases h18 : r = 18
  · subst h18
    simp [show Nat.testBit 254 7 = true from by decide, show Nat.testBit 240 4 = true from by decide, show Nat.testBit 240 5 = true from by decide, show Nat.testBit 240 6 = true from by decide, show Nat.testBit 240 7 = true from by decide, show Nat.testBit 8 4 = false from by decide, show Nat.testBit 8 5 = false from by decide, show Nat.testBit 8 6 = false from by decide, show Nat.testBit 8 7 = false from by decide, show Nat.testBit 4 4 = false from by decide, show Nat.testBit 4 5 = false from by decide, show Nat.testBit 4 6 = false from by decide, show Nat.testBit 4 7 = false from by decide, show Nat.testBit 2 4 = false from by decide, show Nat.testBit 2 5 = false from by decide, show Nat.testBit 2 6 = false from by decide, show Nat.testBit 2 7 = false from by decide, show Nat.testBit 1 4 = false from by decide, show Nat.testBit 1 5 = false from by decide, show Nat.testBit 1 6 = false from by decide, show Nat.testBit 1 7 = false from by decide, show Nat.testBit 1 7 = false from by decide]
  by_cases h19 : r = 19
  · subst h19
    simp [show Nat.testBit 254 7 = true from by decide, show Nat.testBit 240 4 = true from by decide, show Nat.testBit 240 5 = true from by decide, show Nat.testBit 240 6 = true from by decide, show Nat.testBit 240 7 = true from by decide, show Nat.testBit 8 4 = false from by decide, show Nat.testBit 8 5 = false from by decide, show Nat.testBit 8 6 = false from by decide, show Nat.testBit 8 7 = false from by decide, show Nat.testBit 4 4 = false from by decide, show Nat.testBit 4 5 = false from by decide, show Nat.testBit 4 6 = false from by decide, show Nat.testBit 4 7 = false from by decide, show Nat.testBit 2 4 = false from by decide, show Nat.testBit 2 5 = false from by decide, show Nat.testBit 2 6 = false from by decide, show Nat.testBit 2 7 = false from by decide, show Nat.testBit 1 4 = false from by decide, show Nat.testBit 1 5 = false from by decide, show Nat.testBit 1 6 = false from by decide, show Nat.testBit 1 7 = false from by decide, show Nat.testBit 1 7 = false from by decide]
  simp [h0, h1, h2, h3, h4, h5, h6, h7, h8, h9, h10, h11, h12, h13, h14, h15, h16, h17, h18, h19]

lemma clearRight_keeps_left_bits (g : Regs) :
    (clearRight g).PAC.testBit 7 = g.PAC.testBit 7 ∧
    (clearRight g).PBC.testBit 4 = g.PBC.testBit 4 ∧
    (clearRight g).PBC.testBit 5 = g.PBC.testBit 5 ∧
    (clearRight g).PBC.testBit 6 = g.PBC.testBit 6 ∧
    (clearRight g).PBC.testBit 7 = g.PBC.testBit 7 := by
  unfold clearRight
  simp [show Nat.testBit 254 7 = true from by decide,
    show Nat.testBit 240 4 = true from by decide,
    show Nat.testBit 240 5 = true from by decide,
    show Nat.testBit 240 6 = true from by decide,
    show Nat.testBit 240 7 = true from by decide]

lemma setledRight_keeps_left_bits (r : Int) (g : Regs) :
    (setledRight r g).PAC.testBit 7 = g.PAC.testBit 7 ∧
    (setledRight r g).PBC.testBit 4 = g.PBC.testBit 4 ∧
    (setledRight r g).PBC.testBit 5 = g.PBC.testBit 5 ∧
    (setledRight r g).PBC.testBit 6 = g.PBC.testBit 6 ∧
    (setledRight r g).PBC.testBit 7 = g.PBC.testBit 7 := by
  unfold setledRight
  split_ifs with h
  · have hd := driveRight_keeps_left_bits r (clearRight g)
    have hc := clearRight_keeps_left_bits g
    exact ⟨hd.1.trans hc.1, (hd.2.1).trans hc.2.1, (hd.2.2.1).trans hc.2.2.1,
      (hd.2.2.2.1).trans hc.2.2.2.1, (hd.2.2.2.2).trans hc.2.2.2.2⟩
  · exact ⟨rfl, rfl, rfl, rfl, rfl⟩

/-- Claim C9.  In `setled(left, right)`: the value 20 switches the
corresponding side off (after the call, no output pin of that side is
enabled, so no LED on that side can be lit), and a value at or above 21
leaves that side untouched -- the call degenerates to processing only the
other side. -/
theorem C9_setled_sentinels (l r : Int) (g : Regs) :
    (¬ leftActive (setled 20 r g)) ∧
    (¬ rightActive (setled l 20 g)) ∧
    (21 ≤ l → setled l r g = setledRight r g) ∧
    (21 ≤ r → setled l r g = setledLeft l g) := by
  refine ⟨?_, ?_, ?_, ?_⟩
  · intro hact
    have hk := setledRight_keeps_left_bits r (setledLeft 20 g)
    unfold leftActive at hact
    unfold setled at hact
    rw [hk.1, hk.2.1, hk.2.2.1, hk.2.2.2.1, hk.2.2.2.2] at hact
    rw [setledLeft_off] at hact
    rcases hact with h | h | h | h | h <;>
      simp [clearLeft, show Nat.testBit 127 7 = false from by decide,
        show Nat.testBit 15 4 = false from by decide,
        show Nat.testBit 15 5 = false from by decide,
        show Nat.testBit 15 6 = false from by decide,
        show Nat.testBit 15 7 = false from by decide] at h
  · intro hact
    unfold setled at hact
    rw [setledRight_off] at hact
    unfold rightActive at hact
    rcases hact with h | h | h | h | h <;>
      simp [clearRight, show Nat.testBit 254 0 = false from by decide,
        show Nat.testBit 240 0 = false from by decide,
        show Nat.testBit 240 1 = false from by decide,
        show Nat.testBit 240 2 = false from by decide,
        show Nat.testBit 240 3 = false from by decide] at h
  · intro hl
    unfold setled
    rw [setledLeft_id l g hl]
  · intro hr
    unfold setled
    rw [setledRight_id r (setledLeft l g) hr]

/-- Witness for C9: concrete sentinel calls on the power-on registers. -/
theorem C9_witness :
    (¬ leftActive (setled 20 5 setupRegs)) ∧
    (¬ rightActive (setled 30 20 setupRegs)) ∧
    (setled 30 5 setupRegs = setledRight 5 setupRegs) ∧
    (setled 5 21 setupRegs = setledLeft 5 setupRegs) :=
  ⟨(C9_setled_sentinels 30 5 setupRegs).1,
   (C9_setled_sentinels 30 20 setupRegs).2.1,
   (C9_setled_sentinels 30 5 setupRegs).2.2.1 (by decide),
   (C9_setled_sentinels 5 21 setupRegs).2.2.2 (by decide)⟩

/-- Claim C7.  Each of the four directional passes of `twoledsrandom`
sends to the LED driver exactly the 40 entries of `randomsequence`, each
table entry once per pass (the emitted values are a permutation of the
table), and the four passes concatenated therefore visit the table
entries exactly four times in total -- a permutation of four copies of
the table. -/
theorem C7_random_passes :
    List.Perm (stepVals twoledsrandomPassA) (randomsequence.map Int.ofNat) ∧
    List.Perm (stepVals twoledsrandomPassB) (randomsequence.map Int.ofNat) ∧
    List.Perm (stepVals twoledsrandomPassC) (randomsequence.map Int.ofNat) ∧
    List.Perm (stepVals twoledsrandomPassD) (randomsequence.map Int.ofNat) ∧
    List.Perm (stepVals twoledsrandomSteps)
      (randomsequence.map Int.ofNat ++ randomsequence.map Int.ofNat ++
       randomsequence.map Int.ofNat ++ randomsequence.map Int.ofNat) := by
  refine ⟨by decide, by decide, by decide, by decide, by decide⟩

/-! Exact-schedule runs on snug traces. -/

lemma sub32_self_add (t d : Nat) : sub32 (t + d) t = d % 4294967296 := by
  unfold sub32 u32
  omega

lemma waituntil_snug (st t pp : Nat) (rest : Trace) (d : Nat)
    (hd : 25 ≤ d) (hM : t + d < 4294967296) :
    waituntil 25 ⟨st, t, pp⟩ ((t + d, 0) :: rest) = some ⟨0, ⟨st, t + 25, pp⟩, rest⟩ := by
  have h1 : ¬ (sub32 (t + d) t < 25) := by
    rw [sub32_self_add]
    omega
  have h2 : u32 (t + 25) = t + 25 := by
    unfold u32
    omega
  have hwl : waitLoop 25 t (t + d) 0 pp rest = some (t + d, 0, pp, rest) := by
    rw [waitLoop.eq_def]
    simp [h1]
  simp only [waituntil]
  rw [hwl]
  simp [h2]

lemma snugFrom_succ (t n : Nat) :
    snugFrom t (n + 1) = (t + 25, 0) :: snugFrom (t + 25) n := by
  unfold snugFrom
  rw [List.range_succ_eq_map, List.map_cons, List.map_map]
  refine congrArg₂ List.cons (by norm_num) ?_
  apply List.map_congr_left
  intro k _
  simp [Function.comp]
  omega

lemma snugFrom_add (t a b : Nat) :
    snugFrom t (a + b) = snugFrom t a ++ snugFrom (t + 25 * a) b := by
  induction a generalizing t with
  | zero => simp [snugFrom]
  | succ m ih =>
    have h1 : m + 1 + b = (m + b) + 1 := by omega
    rw [h1, snugFrom_succ, snugFrom_succ, ih (t + 25), List.cons_append]
    have h2 : t + 25 + 25 * m = t + 25 * (m + 1) := by omega
    rw [h2]

lemma runSteps_snug :
    ∀ (steps : List (Int × Int)) (st t pp : Nat) (g : Regs) (rest : Trace),
      t + 25 * steps.length < 4294967296 →
      runSteps steps ⟨st, t, pp⟩ g (snugFrom t steps.length ++ rest) =
        some (false, ⟨st, t + 25 * steps.length, pp⟩, applySteps steps g, rest) := by
  intro steps
  induction steps with
  | nil =>
    intro st t pp g rest hM
    simp [runSteps, snugFrom, applySteps]
  | cons x steps ih =>
    intro st t pp g rest hM
    obtain ⟨l, r⟩ := x
    have hM' : t + 25 * steps.length + 25 < 4294967296 := by
      simp [List.length_cons] at hM
      omega
    rw [show ((l, r) :: steps).length = steps.length + 1 from rfl, snugFrom_succ,
      List.cons_append, runSteps]
    have hwu := waituntil_snug st t pp (snugFrom (t + 25) steps.length ++ rest) 25
      (by omega) (by omega)
    rw [hwu]
    simp only
    rw [if_neg (by decide)]
    have hih := ih st (t + 25) pp (setled l r g) rest (by omega)
    rw [hih]
    have harith : t + 25 + 25 * steps.length = t + 25 * (steps.length + 1) := by omega
    rw [harith]
    rfl

lemma playRepeats_snug (steps : List (Int × Int)) :
    ∀ (n : Nat) (st t pp : Nat) (g : Regs) (rest : Trace),
      t + 25 * (n * steps.length) < 4294967296 →
      ∃ gf, playRepeats steps n ⟨st, t, pp⟩ g (snugFrom t (n * steps.length) ++ rest) =
        some (false, ⟨st, t + 25 * (n * steps.length), pp⟩, gf, rest) := by
  intro n
  induction n with
  | zero =>
    intro st t pp g rest hM
    refine ⟨g, ?_⟩
    simp [playRepeats, snugFrom]
  | succ m ih =>
    intro st t pp g rest hM
    have hsplit : (m + 1) * steps.length = steps.length + m * steps.length := by ring
    rw [hsplit, snugFrom_add, List.append_assoc, playRepeats]
    have hrs := runSteps_snug steps st t pp g
      (snugFrom (t + 25 * steps.length) (m * steps.length) ++ rest)
      (by rw [hsplit] at hM; omega)
    rw [hrs]
    simp only
    obtain ⟨gf, hpr⟩ := ih st (t + 25 * steps.length) pp (applySteps steps g) rest
      (by rw [hsplit] at hM; omega)
    rw [hpr]
    refine ⟨gf, ?_⟩
    have harith : t + 25 * steps.length + 25 * (m * steps.length) =
        t + 25 * (steps.length + m * steps.length) := by ring
    rw [harith]

lemma runTicks_succ (n : Nat) (s : Sys) (g : Regs) (tr : Trace)
    (a : TickAct) (s1 : Sys) (g1 : Regs) (tr1 : Trace)
    (as2 : List TickAct) (s2 : Sys) (g2 : Regs) (tr2 : Trace)
    (h1 : loop s g tr = some (a, s1, g1, tr1))
    (h2 : runTicks n s1 g1 tr1 = some (as2, s2, g2, tr2)) :
    runTicks (n + 1) s g tr = some (a :: as2, s2, g2, tr2) := by
  rw [runTicks, h1]
  simp only
  rw [h2]

lemma loop_snug_pulse (t pp : Nat) (g : Regs) (rest : Trace) :
    loop ⟨8, t, pp⟩ g ((t, 0) :: (t + 25, 0) :: rest) =
      some (TickAct.pulse (t + 25), ⟨0, t, pp⟩, { g with PA := 0 }, rest) := by
  have h0 : sub32 t t < 25 := by
    unfold sub32 u32
    omega
  have h25 : ¬ (sub32 (t + 25) t < 25) := by
    rw [sub32_self_add]
    omega
  have hpl : pulseLoop 25 t t ((t + 25, 0) :: rest) = some (t + 25, rest) := by
    rw [pulseLoop.eq_def]
    simp only [if_pos h0]
    rw [pulseLoop.eq_def]
    simp [h25]
  have h1 : loop ⟨8, t, pp⟩ g ((t, 0) :: (t + 25, 0) :: rest) =
      (syncpulse 25 ⟨9, t, pp⟩ g ((t, 0) :: (t + 25, 0) :: rest)).map
        (fun o => (TickAct.pulse o.1, { o.2.1 with state := 0 }, o.2.2.1, o.2.2.2)) := rfl
  have h2 : syncpulse 25 ⟨9, t, pp⟩ g ((t, 0) :: (t + 25, 0) :: rest) =
      some (t + 25, ⟨9, t, pp⟩, { g with PA := 0 }, rest) := by
    simp only [syncpulse]
    rw [hpl]
  rw [h1, h2]
  rfl

lemma loop_snug_1 (t pp : Nat) (g : Regs) (rest : Trace)
    (hM : t + 25 * 160 < 4294967296) :
    ∃ gf, loop ⟨0, t, pp⟩ g (snugFrom t 160 ++ rest) =
      some (TickAct.pat 1 4, ⟨1, t + 25 * 160, pp⟩, gf, rest) := by
  have hlen : (160 : Nat) = 4 * singleledccwSteps.length := by decide
  obtain ⟨gf, hp⟩ := playRepeats_snug singleledccwSteps 4 1 t pp g rest
    (by rw [← hlen]; exact hM)
  refine ⟨gf, ?_⟩
  have h1 : loop ⟨0, t, pp⟩ g (snugFrom t 160 ++ rest) =
      (playRepeats singleledccwSteps 4 ⟨1, t, pp⟩ g (snugFrom t 160 ++ rest)).map
        (fun o => (TickAct.pat 1 4, o.2.1, o.2.2.1, o.2.2.2)) := rfl
  rw [h1, hlen, hp]
  rfl

lemma loop_snug_2 (t pp : Nat) (g : Regs) (rest : Trace)
    (hM : t + 25 * 160 < 4294967296) :
    ∃ gf, loop ⟨1, t, pp⟩ g (snugFrom t 160 ++ rest) =
      some (TickAct.pat 2 4, ⟨2, t + 25 * 160, pp⟩, gf, rest) := by
  have hlen : (160 : Nat) = 4 * singleledcwSteps.length := by decide
  obtain ⟨gf, hp⟩ := playRepeats_snug singleledcwSteps 4 2 t pp g rest
    (by rw [← hlen]; exact hM)
  refine ⟨gf, ?_⟩
  have h1 : loop ⟨1, t, pp⟩ g (snugFrom t 160 ++ rest) =
      (playRepeats singleledcwSteps 4 ⟨2, t, pp⟩ g (snugFrom t 160 ++ rest)).map
        (fun o => (TickAct.pat 2 4, o.2.1, o.2.2.1, o.2.2.2)) := rfl
  rw [h1, hlen, hp]
  rfl

lemma loop_snug_3 (t pp : Nat) (g : Regs) (rest : Trace)
    (hM : t + 25 * 160 < 4294967296) :
    ∃ gf, loop ⟨2, t, pp⟩ g (snugFrom t 160 ++ rest) =
      some (TickAct.pat 3 8, ⟨3, t + 25 * 160, pp⟩, gf, rest) := by
  have hlen : (160 : Nat) = 8 * twoledsccwSteps.length := by decide
  obtain ⟨gf, hp⟩ := playRepeats_snug twoledsccwSteps 8 3 t pp g rest
    (by rw [← hlen]; exact hM)
  refine ⟨gf, ?_⟩
  have h1 : loop ⟨2, t, pp⟩ g (snugFrom t 160 ++ rest) =
      (playRepeats twoledsccwSteps 8 ⟨3, t, pp⟩ g (snugFrom t 160 ++ rest)).map
        (fun o => (TickAct.pat 3 8, o.2.1, o.2.2.1, o.2.2.2)) := rfl
  rw [h1, hlen, hp]
  rfl

lemma loop_snug_4 (t pp : Nat) (g : Regs) (rest : Trace)
    (hM : t + 25 * 160 < 4294967296) :
    ∃ gf, loop ⟨3, t, pp⟩ g (snugFrom t 160 ++ rest) =
      some (TickAct.pat 4 8, ⟨4, t + 25 * 160, pp⟩, gf, rest) := by
  have hlen : (160 : Nat) = 8 * twoledscwSteps.length := by decide
  obtain ⟨gf, hp⟩ := playRepeats_snug twoledscwSteps 8 4 t pp g rest
    (by rw [← hlen]; exact hM)
  refine ⟨gf, ?_⟩
  have h1 : loop ⟨3, t, pp⟩ g (snugFrom t 160 ++ rest) =
      (playRepeats twoledscwSteps 8 ⟨4, t, pp⟩ g (snugFrom t 160 ++ rest)).map
        (fun o => (TickAct.pat 4 8, o.2.1, o.2.2.1, o.2.2.2)) := rfl
  rw [h1, hlen, hp]
  rfl

lemma loop_snug_5 (t pp : Nat) (g : Regs) (rest : Trace)
    (hM : t + 25 * 160 < 4294967296) :
    ∃ gf, loop ⟨4, t, pp⟩ g (snugFrom t 160 ++ rest) =
      some (TickAct.pat 5 8, ⟨5, t + 25 * 160, pp⟩, gf, rest) := by
  have hlen : (160 : Nat) = 8 * twoledsflapdownSteps.length := by decide
  obtain ⟨gf, hp⟩ := playRepeats_snug twoledsflapdownSteps 8 5 t pp g rest
    (by rw [← hlen]; exact hM)
  refine ⟨gf, ?_⟩
  have h1 : loop ⟨4, t, pp⟩ g (snugFrom t 160 ++ rest) =
      (playRepeats twoledsflapdownSteps 8 ⟨5, t, pp⟩ g (snugFrom t 160 ++ rest)).map
        (fun o => (TickAct.pat 5 8, o.2.1, o.2.2.1, o.2.2.2)) := rfl
  rw [h1, hlen, hp]
  rfl

lemma loop_snug_6 (t pp : Nat) (g : Regs) (rest : Trace)
    (hM : t + 25 * 160 < 4294967296) :
    ∃ gf, loop ⟨5, t, pp⟩ g (snugFrom t 160 ++ rest) =
      some (TickAct.pat 6 8, ⟨6, t + 25 * 160, pp⟩, gf, rest) := by
  have hlen : (160 : Nat) = 8 * twoledsflapupSteps.length := by decide
  obtain ⟨gf, hp⟩ := playRepeats_snug twoledsflapupSteps 8 6 t pp g rest
    (by rw [← hlen]; exact hM)
  refine ⟨gf, ?_⟩
  have h1 : loop ⟨5, t, pp⟩ g (snugFrom t 160 ++ rest) =
      (playRepeats twoledsflapupSteps 8 ⟨6, t, pp⟩ g (snugFrom t 160 ++ rest)).map
        (fun o => (TickAct.pat 6 8, o.2.1, o.2.2.1, o.2.2.2)) := rfl
  rw [h1, hlen, hp]
  rfl

lemma loop_snug_7 (t pp : Nat) (g : Regs) (rest : Trace)
    (hM : t + 25 * 160 < 4294967296) :
    ∃ gf, loop ⟨6, t, pp⟩ g (snugFrom t 160 ++ rest) =
      some (TickAct.pat 7 4, ⟨7, t + 25 * 160, pp⟩, gf, rest) := by
  have hlen : (160 : Nat) = 4 * twoledsflapSteps.length := by decide
  obtain ⟨gf, hp⟩ := playRepeats_snug twoledsflapSteps 4 7 t pp g rest
    (by rw [← hlen]; exact hM)
  refine ⟨gf, ?_⟩
  have h1 : loop ⟨6, t, pp⟩ g (snugFrom t 160 ++ rest) =
      (playRepeats twoledsflapSteps 4 ⟨7, t, pp⟩ g (snugFrom t 160 ++ rest)).map
        (fun o => (TickAct.pat 7 4, o.2.1, o.2.2.1, o.2.2.2)) := rfl
  rw [h1, hlen, hp]
  rfl

lemma loop_snug_8 (t pp : Nat) (g : Regs) (rest : Trace)
    (hM : t + 25 * 320 < 4294967296) :
    ∃ gf, loop ⟨7, t, pp⟩ g (snugFrom t 320 ++ rest) =
      some (TickAct.pat 8 4, ⟨8, t + 25 * 320, pp⟩, gf, rest) := by
  have hlen : (320 : Nat) = 4 * twoledsrandomSteps.length := by decide
  obtain ⟨gf, hp⟩ := playRepeats_snug twoledsrandomSteps 4 8 t pp g rest
    (by rw [← hlen]; exact hM)
  refine ⟨gf, ?_⟩
  have h1 : loop ⟨7, t, pp⟩ g (snugFrom t 320 ++ rest) =
      (playRepeats twoledsrandomSteps 4 ⟨8, t, pp⟩ g (snugFrom t 320 ++ rest)).map
        (fun o => (TickAct.pat 8 4, o.2.1, o.2.2.1, o.2.2.2)) := rfl
  rw [h1, hlen, hp]
  rfl

/-- Claim C6.  On the canonical quiet trace starting at clock 0 (no sync
edge ever), one scheduler cycle of 9 ticks dispatches the eight patterns
and then pulses: the Timing Baseline advances by exactly 25 ms per step to
25 * cycleStepTotal = 36000, the pulse ends at clock 36025 =
25 * cycleStepTotal + 25, the whole trace is consumed, and the step total
computed from the dispatch table is 48 repeat-units, 1440 steps. -/
theorem C6_full_cycle_timing :
    (runTicks 9 setupSys setupRegs cycleTrace).map
        (fun o => (o.1, o.2.1.state, o.2.1.previoustime, o.2.2.2)) =
      some ([TickAct.pat 1 4, TickAct.pat 2 4, TickAct.pat 3 8, TickAct.pat 4 8,
             TickAct.pat 5 8, TickAct.pat 6 8, TickAct.pat 7 4, TickAct.pat 8 4,
             TickAct.pulse (25 * cycleStepTotal + 25)], 0, 25 * cycleStepTotal, []) ∧
    cycleStepTotal = 1440 ∧ 25 * cycleStepTotal + 25 = 36025 := by
  have hct : cycleStepTotal = 1440 := by decide
  refine ⟨?_, hct, by rw [hct]⟩
  obtain ⟨g1, h1⟩ := loop_snug_1 0 1 setupRegs (snugFrom 4000 160 ++ snugFrom 8000 160 ++ snugFrom 12000 160 ++ snugFrom 16000 160 ++ snugFrom 20000 160 ++ snugFrom 24000 160 ++ snugFrom 28000 320 ++ [(36000, 0), (36025, 0)]) (by norm_num)
  norm_num at h1
  obtain ⟨g2, h2⟩ := loop_snug_2 4000 1 g1 (snugFrom 8000 160 ++ snugFrom 12000 160 ++ snugFrom 16000 160 ++ snugFrom 20000 160 ++ snugFrom 24000 160 ++ snugFrom 28000 320 ++ [(36000, 0), (36025, 0)]) (by norm_num)
  norm_num at h2
  obtain ⟨g3, h3⟩ := loop_snug_3 8000 1 g2 (snugFrom 12000 160 ++ snugFrom 16000 160 ++ snugFrom 20000 160 ++ snugFrom 24000 160 ++ snugFrom 28000 320 ++ [(36000, 0), (36025, 0)]) (by norm_num)
  norm_num at h3
  obtain ⟨g4, h4⟩ := loop_snug_4 12000 1 g3 (snugFrom 16000 160 ++ snugFrom 20000 160 ++ snugFrom 24000 160 ++ snugFrom 28000 320 ++ [(36000, 0), (36025, 0)]) (by norm_num)
  norm_num at h4
  obtain ⟨g5, h5⟩ := loop_snug_5 16000 1 g4 (snugFrom 20000 160 ++ snugFrom 24000 160 ++ snugFrom 28000 320 ++ [(36000, 0), (36025, 0)]) (by norm_num)
  norm_num at h5
  obtain ⟨g6, h6⟩ := loop_snug_6 20000 1 g5 (snugFrom 24000 160 ++ snugFrom 28000 320 ++ [(36000, 0), (36025, 0)]) (by norm_num)
  norm_num at h6
  obtain ⟨g7, h7⟩ := loop_snug_7 24000 1 g6 (snugFrom 28000 320 ++ [(36000, 0), (36025, 0)]) (by norm_num)
  norm_num at h7
  obtain ⟨g8, h8⟩ := loop_snug_8 28000 1 g7 ([(36000, 0), (36025, 0)]) (by norm_num)
  norm_num at h8
  have hp := loop_snug_pulse 36000 1 g8 []
  norm_num at hp
  have r0 : runTicks 0 ⟨0, 36000, 1⟩ { g8 with PA := 0 } [] =
      some ([], ⟨0, 36000, 1⟩, { g8 with PA := 0 }, []) := rfl
  have r1 := runTicks_succ 0 _ _ _ _ _ _ _ _ _ _ _ hp r0
  have r2 := runTicks_succ 1 _ _ _ _ _ _ _ _ _ _ _ h8 r1
  have r3 := runTicks_succ 2 _ _ _ _ _ _ _ _ _ _ _ h7 r2
  have r4 := runTicks_succ 3 _ _ _ _ _ _ _ _ _ _ _ h6 r3
  have r5 := runTicks_succ 4 _ _ _ _ _ _ _ _ _ _ _ h5 r4
  have r6 := runTicks_succ 5 _ _ _ _ _ _ _ _ _ _ _ h4 r5
  have r7 := runTicks_succ 6 _ _ _ _ _ _ _ _ _ _ _ h3 r6
  have r8 := runTicks_succ 7 _ _ _ _ _ _ _ _ _ _ _ h2 r7
  have r9 := runTicks_succ 8 _ _ _ _ _ _ _ _ _ _ _ h1 r8
  rw [show cycleTrace = snugFrom 0 160 ++ (snugFrom 4000 160 ++ (snugFrom 8000 160 ++ (snugFrom 12000 160 ++ (snugFrom 16000 160 ++ (snugFrom 20000 160 ++ (snugFrom 24000 160 ++ (snugFrom 28000 320 ++ ([(36000, 0), (36025, 0)])))))))) from by simp [cycleTrace, List.append_assoc]]
  rw [show setupSys = (⟨0, 0, 1⟩ : Sys) from rfl]
  norm_num at r9
  rw [r9, hct]
  norm_num

/-! Quiet traces: the pin never reads HIGH, so every wait times out. -/

lemma waitLoop_quiet (time prevT : Nat) :
    ∀ (tr : Trace) (ct cp pp ct' cp' pp' : Nat) (rem : Trace),
      cp = 0 → quiet tr →
      waitLoop time prevT ct cp pp tr = some (ct', cp', pp', rem) →
      cp' = 0 ∧ quiet rem := by
  intro tr
  induction tr with
  | nil =>
    intro ct cp pp ct' cp' pp' rem hcp hq hw
    rw [waitLoop] at hw
    split at hw
    · exact absurd hw (by simp)
    · rw [Option.some_inj, Prod.mk.injEq, Prod.mk.injEq, Prod.mk.injEq] at hw
      exact ⟨hw.2.1 ▸ hcp, hw.2.2.2 ▸ (by intro x hx; cases hx)⟩
  | cons x rest ih =>
    intro ct cp pp ct' cp' pp' rem hcp hq hw
    obtain ⟨t, p⟩ := x
    rw [waitLoop] at hw
    split at hw
    · exact ih t p cp ct' cp' pp' rem (hq (t, p) (by simp)) (fun y hy => hq y (by simp [hy])) hw
    · rw [Option.some_inj, Prod.mk.injEq, Prod.mk.injEq, Prod.mk.injEq] at hw
      exact ⟨hw.2.1 ▸ hcp, hw.2.2.2 ▸ hq⟩

lemma waituntil_quiet (time : Nat) (s : Sys) (tr : Trace) (w : WU)
    (hq : quiet tr) (hw : waituntil time s tr = some w) :
    w.ret = 0 ∧ w.sys.state = s.state ∧ quiet w.rest := by
  match tr with
  | [] => exact absurd hw (by simp [waituntil])
  | (t0, p0) :: rest =>
    rw [waituntil] at hw
    cases hwl : waitLoop time s.previoustime t0 p0 s.previouspinstate rest with
    | none => rw [hwl] at hw; exact absurd hw (by simp)
    | some q =>
      obtain ⟨ct, cp, pp, rem⟩ := q
      rw [hwl] at hw
      have hz := waitLoop_quiet time s.previoustime rest t0 p0 s.previouspinstate
        ct cp pp rem (hq (t0, p0) (by simp)) (fun y hy => hq y (by simp [hy])) hwl
      simp only at hw
      split at hw
      · rename_i hrise
        exact absurd hrise.1 (by omega)
      · have hw := Option.some_inj.mp hw
        subst hw
        exact ⟨rfl, rfl, hz.2⟩

lemma runSteps_quiet :
    ∀ (steps : List (Int × Int)) (s : Sys) (g : Regs) (tr : Trace)
      (b : Bool) (s1 : Sys) (g1 : Regs) (tr1 : Trace),
      quiet tr → runSteps steps s g tr = some (b, s1, g1, tr1) →
      b = false ∧ s1.state = s.state ∧ quiet tr1 := by
  intro steps
  induction steps with
  | nil =>
    intro s g tr b s1 g1 tr1 hq h
    simp only [runSteps, Option.some_inj, Prod.mk.injEq] at h
    exact ⟨h.1.symm, by rw [← h.2.1], h.2.2.2 ▸ hq⟩
  | cons x steps ih =>
    intro s g tr b s1 g1 tr1 hq h
    obtain ⟨l, r⟩ := x
    rw [runSteps] at h
    cases hwu : waituntil 25 s tr with
    | none => rw [hwu] at h; exact absurd h (by simp)
    | some w =>
      rw [hwu] at h
      have hwq := waituntil_quiet 25 s tr w hq hwu
      simp only at h
      split at h
      · rename_i hret
        exact absurd (hret ▸ hwq.1) (by decide)
      · obtain ⟨hb, hst, hqq⟩ := ih w.sys (setled l r g) w.rest b s1 g1 tr1 hwq.2.2 h
        exact ⟨hb, hst.trans hwq.2.1, hqq⟩

lemma playRepeats_quiet (steps : List (Int × Int)) :
    ∀ (n : Nat) (s : Sys) (g : Regs) (tr : Trace)
      (b : Bool) (s1 : Sys) (g1 : Regs) (tr1 : Trace),
      quiet tr → playRepeats steps n s g tr = some (b, s1, g1, tr1) →
      b = false ∧ s1.state = s.state ∧ quiet tr1 := by
  intro n
  induction n with
  | zero =>
    intro s g tr b s1 g1 tr1 hq h
    simp only [playRepeats, Option.some_inj, Prod.mk.injEq] at h
    exact ⟨h.1.symm, by rw [← h.2.1], h.2.2.2 ▸ hq⟩
  | succ m ih =>
    intro s g tr b s1 g1 tr1 hq h
    rw [playRepeats] at h
    cases hrs : runSteps steps s g tr with
    | none => rw [hrs] at h; exact absurd h (by simp)
    | some o =>
      obtain ⟨b2, s2, g2, tr2⟩ := o
      rw [hrs] at h
      obtain ⟨hb2, hst2, hq2⟩ := runSteps_quiet steps s g tr b2 s2 g2 tr2 hq hrs
      subst hb2
      obtain ⟨hb, hst, hqq⟩ := ih s2 g2 tr2 b s1 g1 tr1 hq2 h
      exact ⟨hb, hst.trans hst2, hqq⟩

lemma pulseLoop_quiet (time t0 : Nat) :
    ∀ (tr : Trace) (ct ct' : Nat) (rem : Trace),
      quiet tr → pulseLoop time t0 ct tr = some (ct', rem) → quiet rem := by
  intro tr
  induction tr with
  | nil =>
    intro ct ct' rem hq hw
    rw [pulseLoop] at hw
    split at hw
    · exact absurd hw (by simp)
    · rw [Option.some_inj, Prod.mk.injEq] at hw
      exact hw.2 ▸ (by intro x hx; cases hx)
  | cons x rest ih =>
    intro ct ct' rem hq hw
    obtain ⟨t, p⟩ := x
    rw [pulseLoop] at hw
    split at hw
    · exact ih t ct' rem (fun y hy => hq y (by simp [hy])) hw
    · rw [Option.some_inj, Prod.mk.injEq] at hw
      exact hw.2 ▸ hq

lemma syncpulse_quiet (time : Nat) (s : Sys) (g : Regs) (tr : Trace)
    (c : Nat) (s1 : Sys) (g1 : Regs) (rem : Trace)
    (hq : quiet tr) (h : syncpulse time s g tr = some (c, s1, g1, rem)) :
    quiet rem := by
  match tr with
  | [] => exact absurd h (by simp [syncpulse])
  | (t0, q0) :: rest =>
    rw [syncpulse] at h
    cases hpl : pulseLoop time t0 t0 rest with
    | none => rw [hpl] at h; exact absurd h (by simp)
    | some q =>
      obtain ⟨ct, rem2⟩ := q
      rw [hpl] at h
      simp only [Option.some_inj, Prod.mk.injEq] at h
      have hq2 := pulseLoop_quiet time t0 rest t0 ct rem2 (fun y hy => hq y (by simp [hy])) hpl
      exact h.2.2.2 ▸ hq2

lemma loop_quiet_1 (pt pp : Nat) (g : Regs) (tr : Trace)
    (out : TickAct × Sys × Regs × Trace)
    (hq : quiet tr) (h : loop ⟨0, pt, pp⟩ g tr = some out) :
    out.1 = TickAct.pat 1 4 ∧ out.2.1.state = 1 ∧ quiet out.2.2.2 := by
  have hdef : loop ⟨0, pt, pp⟩ g tr =
      (playRepeats singleledccwSteps 4 ⟨1, pt, pp⟩ g tr).map
        (fun o => (TickAct.pat 1 4, o.2.1, o.2.2.1, o.2.2.2)) := rfl
  rw [hdef] at h
  rcases Option.map_eq_some'.mp h with ⟨⟨b, s2, g2, tr2⟩, hpr, hfo⟩
  obtain ⟨-, hst, hqq⟩ := playRepeats_quiet singleledccwSteps 4 ⟨1, pt, pp⟩ g tr b s2 g2 tr2 hq hpr
  subst hfo
  exact ⟨rfl, hst, hqq⟩

lemma loop_quiet_2 (pt pp : Nat) (g : Regs) (tr : Trace)
    (out : TickAct × Sys × Regs × Trace)
    (hq : quiet tr) (h : loop ⟨1, pt, pp⟩ g tr = some out) :
    out.1 = TickAct.pat 2 4 ∧ out.2.1.state = 2 ∧ quiet out.2.2.2 := by
  have hdef : loop ⟨1, pt, pp⟩ g tr =
      (playRepeats singleledcwSteps 4 ⟨2, pt, pp⟩ g tr).map
        (fun o => (TickAct.pat 2 4, o.2.1, o.2.2.1, o.2.2.2)) := rfl
  rw [hdef] at h
  rcases Option.map_eq_some'.mp h with ⟨⟨b, s2, g2, tr2⟩, hpr, hfo⟩
  obtain ⟨-, hst, hqq⟩ := playRepeats_quiet singleledcwSteps 4 ⟨2, pt, pp⟩ g tr b s2 g2 tr2 hq hpr
  subst hfo
  exact ⟨rfl, hst, hqq⟩

lemma loop_quiet_3 (pt pp : Nat) (g : Regs) (tr : Trace)
    (out : TickAct × Sys × Regs × Trace)
    (hq : quiet tr) (h : loop ⟨2, pt, pp⟩ g tr = some out) :
    out.1 = TickAct.pat 3 8 ∧ out.2.1.state = 3 ∧ quiet out.2.2.2 := by
  have hdef : loop ⟨2, pt, pp⟩ g tr =
      (playRepeats twoledsccwSteps 8 ⟨3, pt, pp⟩ g tr).map
        (fun o => (TickAct.pat 3 8, o.2.1, o.2.2.1, o.2.2.2)) := rfl
  rw [hdef] at h
  rcases Option.map_eq_some'.mp h with ⟨⟨b, s2, g2, tr2⟩, hpr, hfo⟩
  obtain ⟨-, hst, hqq⟩ := playRepeats_quiet twoledsccwSteps 8 ⟨3, pt, pp⟩ g tr b s2 g2 tr2 hq hpr
  subst hfo
  exact ⟨rfl, hst, hqq⟩

lemma loop_quiet_4 (pt pp : Nat) (g : Regs) (tr : Trace)
    (out : TickAct × Sys × Regs × Trace)
    (hq : quiet tr) (h : loop ⟨3, pt, pp⟩ g tr = some out) :
    out.1 = TickAct.pat 4 8 ∧ out.2.1.state = 4 ∧ quiet out.2.2.2 := by
  have hdef : loop ⟨3, pt, pp⟩ g tr =
      (playRepeats twoledscwSteps 8 ⟨4, pt, pp⟩ g tr).map
        (fun o => (TickAct.pat 4 8, o.2.1, o.2.2.1, o.2.2.2)) := rfl
  rw [hdef] at h
  rcases Option.map_eq_some'.mp h with ⟨⟨b, s2, g2, tr2⟩, hpr, hfo⟩
  obtain ⟨-, hst, hqq⟩ := playRepeats_quiet twoledscwSteps 8 ⟨4, pt, pp⟩ g tr b s2 g2 tr2 hq hpr
  subst hfo
  exact ⟨rfl, hst, hqq⟩

lemma loop_quiet_5 (pt pp : Nat) (g : Regs) (tr : Trace)
    (out : TickAct × Sys × Regs × Trace)
    (hq : quiet tr) (h : loop ⟨4, pt, pp⟩ g tr = some out) :
    out.1 = TickAct.pat 5 8 ∧ out.2.1.state = 5 ∧ quiet out.2.2.2 := by
  have hdef : loop ⟨4, pt, pp⟩ g tr =
      (playRepeats twoledsflapdownSteps 8 ⟨5, pt, pp⟩ g tr).map
        (fun o => (TickAct.pat 5 8, o.2.1, o.2.2.1, o.2.2.2)) := rfl
  rw [hdef] at h
  rcases Option.map_eq_some'.mp h with ⟨⟨b, s2, g2, tr2⟩, hpr, hfo⟩
  obtain ⟨-, hst, hqq⟩ := playRepeats_quiet twoledsflapdownSteps 8 ⟨5, pt, pp⟩ g tr b s2 g2 tr2 hq hpr
  subst hfo
  exact ⟨rfl, hst, hqq⟩

lemma loop_quiet_6 (pt pp : Nat) (g : Regs) (tr : Trace)
    (out : TickAct × Sys × Regs × Trace)
    (hq : quiet tr) (h : loop ⟨5, pt, pp⟩ g tr = some out) :
    out.1 = TickAct.pat 6 8 ∧ out.2.1.state = 6 ∧ quiet out.2.2.2 := by
  have hdef : loop ⟨5, pt, pp⟩ g tr =
      (playRepeats twoledsflapupSteps 8 ⟨6, pt, pp⟩ g tr).map
        (fun o => (TickAct.pat 6 8, o.2.1, o.2.2.1, o.2.2.2)) := rfl
  rw [hdef] at h
  rcases Option.map_eq_some'.mp h with ⟨⟨b, s2, g2, tr2⟩, hpr, hfo⟩
  obtain ⟨-, hst, hqq⟩ := playRepeats_quiet twoledsflapupSteps 8 ⟨6, pt, pp⟩ g tr b s2 g2 tr2 hq hpr
  subst hfo
  exact ⟨rfl, hst, hqq⟩

lemma loop_quiet_7 (pt pp : Nat) (g : Regs) (tr : Trace)
    (out : TickAct × Sys × Regs × Trace)
    (hq : quiet tr) (h : loop ⟨6, pt, pp⟩ g tr = some out) :
    out.1 = TickAct.pat 7 4 ∧ out.2.1.state = 7 ∧ quiet out.2.2.2 := by
  have hdef : loop ⟨6, pt, pp⟩ g tr =
      (playRepeats twoledsflapSteps 4 ⟨7, pt, pp⟩ g tr).map
        (fun o => (TickAct.pat 7 4, o.2.1, o.2.2.1, o.2.2.2)) := rfl
  rw [hdef] at h
  rcases Option.map_eq_some'.mp h with ⟨⟨b, s2, g2, tr2⟩, hpr, hfo⟩
  obtain ⟨-, hst, hqq⟩ := playRepeats_quiet twoledsflapSteps 4 ⟨7, pt, pp⟩ g tr b s2 g2 tr2 hq hpr
  subst hfo
  exact ⟨rfl, hst, hqq⟩

lemma loop_quiet_8 (pt pp : Nat) (g : Regs) (tr : Trace)
    (out : TickAct × Sys × Regs × Trace)
    (hq : quiet tr) (h : loop ⟨7, pt, pp⟩ g tr = some out) :
    out.1 = TickAct.pat 8 4 ∧ out.2.1.state = 8 ∧ quiet out.2.2.2 := by
  have hdef : loop ⟨7, pt, pp⟩ g tr =
      (playRepeats twoledsrandomSteps 4 ⟨8, pt, pp⟩ g tr).map
        (fun o => (TickAct.pat 8 4, o.2.1, o.2.2.1, o.2.2.2)) := rfl
  rw [hdef] at h
  rcases Option.map_eq_some'.mp h with ⟨⟨b, s2, g2, tr2⟩, hpr, hfo⟩
  obtain ⟨-, hst, hqq⟩ := playRepeats_quiet twoledsrandomSteps 4 ⟨8, pt, pp⟩ g tr b s2 g2 tr2 hq hpr
  subst hfo
  exact ⟨rfl, hst, hqq⟩

lemma loop_quiet_pulse (pt pp : Nat) (g : Regs) (tr : Trace)
    (out : TickAct × Sys × Regs × Trace)
    (hq : quiet tr) (h : loop ⟨8, pt, pp⟩ g tr = some out) :
    (∃ c, out.1 = TickAct.pulse c) ∧ out.2.1.state = 0 ∧ quiet out.2.2.2 := by
  have hdef : loop ⟨8, pt, pp⟩ g tr =
      (syncpulse 25 ⟨9, pt, pp⟩ g tr).map
        (fun o => (TickAct.pulse o.1, { o.2.1 with state := 0 }, o.2.2.1, o.2.2.2)) := rfl
  rw [hdef] at h
  rcases Option.map_eq_some'.mp h with ⟨⟨c, s2, g2, tr2⟩, hsp, hfo⟩
  have hqq := syncpulse_quiet 25 ⟨9, pt, pp⟩ g tr c s2 g2 tr2 hq hsp
  subst hfo
  exact ⟨⟨c, rfl⟩, rfl, hqq⟩

lemma runTicks_succ_inv (n : Nat) (s : Sys) (g : Regs) (tr : Trace)
    (out : List TickAct × Sys × Regs × Trace)
    (h : runTicks (n + 1) s g tr = some out) :
    ∃ a s1 g1 tr1 as2 s2 g2 tr2,
      loop s g tr = some (a, s1, g1, tr1) ∧
      runTicks n s1 g1 tr1 = some (as2, s2, g2, tr2) ∧
      out = (a :: as2, s2, g2, tr2) := by
  rw [runTicks] at h
  cases hl : loop s g tr with
  | none => rw [hl] at h; exact absurd h (by simp)
  | some o =>
    obtain ⟨a, s1, g1, tr1⟩ := o
    rw [hl] at h
    simp only at h
    cases hr : runTicks n s1 g1 tr1 with
    | none => rw [hr] at h; exact absurd h (by simp)
    | some o2 =>
      obtain ⟨as2, s2, g2, tr2⟩ := o2
      rw [hr] at h
      simp only at h
      exact ⟨a, s1, g1, tr1, as2, s2, g2, tr2, rfl, hr, (Option.some_inj.mp h).symm⟩

/-- Claim C3.  On any trace whose pin never reads HIGH (no sync edge),
ten scheduler ticks from state 0 dispatch patterns 1..8 with repeat
counts 4,4,8,8,8,8,4,4, then transmit a sync pulse (after which state is
0, witnessed by the tenth tick dispatching pattern 1 again). -/
theorem C3_scheduler_roundtrip (s : Sys) (g : Regs) (tr : Trace)
    (out : List TickAct × Sys × Regs × Trace)
    (hs : s.state = 0) (hq : quiet tr) (h : runTicks 10 s g tr = some out) :
    ∃ c, out.1 = [TickAct.pat 1 4, TickAct.pat 2 4, TickAct.pat 3 8, TickAct.pat 4 8,
      TickAct.pat 5 8, TickAct.pat 6 8, TickAct.pat 7 4, TickAct.pat 8 4,
      TickAct.pulse c, TickAct.pat 1 4] := by
  obtain ⟨st, pt0, pp0⟩ := s
  simp only at hs
  subst hs
  obtain ⟨a1, sA1, gA1, trA1, as1, sB1, gB1, trB1, hl1, hr1, ho1⟩ :=
    runTicks_succ_inv 9 _ _ _ _ h
  have q1 := loop_quiet_1 pt0 pp0 g tr _ hq hl1
  have hA1 : a1 = TickAct.pat 1 4 := q1.1
  subst hA1
  have hQ1 : quiet trA1 := q1.2.2
  obtain ⟨stN1, pt1, pp1⟩ := sA1
  have hS1 : stN1 = 1 := q1.2.1
  subst hS1
  obtain ⟨a2, sA2, gA2, trA2, as2, sB2, gB2, trB2, hl2, hr2, ho2⟩ :=
    runTicks_succ_inv 8 _ _ _ _ hr1
  simp only [Prod.mk.injEq] at ho2
  obtain ⟨hx2, -, -, -⟩ := ho2
  subst hx2
  have q2 := loop_quiet_2 pt1 pp1 gA1 trA1 _ hQ1 hl2
  have hA2 : a2 = TickAct.pat 2 4 := q2.1
  subst hA2
  have hQ2 : quiet trA2 := q2.2.2
  obtain ⟨stN2, pt2, pp2⟩ := sA2
  have hS2 : stN2 = 2 := q2.2.1
  subst hS2
  obtain ⟨a3, sA3, gA3, trA3, as3, sB3, gB3, trB3, hl3, hr3, ho3⟩ :=
    runTicks_succ_inv 7 _ _ _ _ hr2
  simp only [Prod.mk.injEq] at ho3
  obtain ⟨hx3, -, -, -⟩ := ho3
  subst hx3
  have q3 := loop_quiet_3 pt2 pp2 gA2 trA2 _ hQ2 hl3
  have hA3 : a3 = TickAct.pat 3 8 := q3.1
  subst hA3
  have hQ3 : quiet trA3 := q3.2.2
  obtain ⟨stN3, pt3, pp3⟩ := sA3
  have hS3 : stN3 = 3 := q3.2.1
  subst hS3
  obtain ⟨a4, sA4, gA4, trA4, as4, sB4, gB4, trB4, hl4, hr4, ho4⟩ :=
    runTicks_succ_inv 6 _ _ _ _ hr3
  simp only [Prod.mk.injEq] at ho4
  obtain ⟨hx4, -, -, -⟩ := ho4
  subst hx4
  have q4 := loop_quiet_4 pt3 pp3 gA3 trA3 _ hQ3 hl4
  have hA4 : a4 = TickAct.pat 4 8 := q4.1
  subst hA4
  have hQ4 : quiet trA4 := q4.2.2
  obtain ⟨stN4, pt4, pp4⟩ := sA4
  have hS4 : stN4 = 4 := q4.2.1
  subst hS4
  obtain ⟨a5, sA5, gA5, trA5, as5, sB5, gB5, trB5, hl5, hr5, ho5⟩ :=
    runTicks_succ_inv 5 _ _ _ _ hr4
  simp only [Prod.mk.injEq] at ho5
  obtain ⟨hx5, -, -, -⟩ := ho5
  subst hx5
  have q5 := loop_quiet_5 pt4 pp4 gA4 trA4 _ hQ4 hl5
  have hA5 : a5 = TickAct.pat 5 8 := q5.1
  subst hA5
  have hQ5 : quiet trA5 := q5.2.2
  obtain ⟨stN5, pt5, pp5⟩ := sA5
  have hS5 : stN5 = 5 := q5.2.1
  subst hS5
  obtain ⟨a6, sA6, gA6, trA6, as6, sB6, gB6, trB6, hl6, hr6, ho6⟩ :=
    runTicks_succ_inv 4 _ _ _ _ hr5
  simp only [Prod.mk.injEq] at ho6
  obtain ⟨hx6, -, -, -⟩ := ho6
  subst hx6
  have q6 := loop_quiet_6 pt5 pp5 gA5 trA5 _ hQ5 hl6
  have hA6 : a6 = TickAct.pat 6 8 := q6.1
  subst hA6
  have hQ6 : quiet trA6 := q6.2.2
  obtain ⟨stN6, pt6, pp6⟩ := sA6
  have hS6 : stN6 = 6 := q6.2.1
  subst hS6
  obtain ⟨a7, sA7, gA7, trA7, as7, sB7, gB7, trB7, hl7, hr7, ho7⟩ :=
    runTicks_succ_inv 3 _ _ _ _ hr6
  simp only [Prod.mk.injEq] at ho7
  obtain ⟨hx7, -, -, -⟩ := ho7
  subst hx7
  have q7 := loop_quiet_7 pt6 pp6 gA6 trA6 _ hQ6 hl7
  have hA7 : a7 = TickAct.pat 7 4 := q7.1
  subst hA7
  have hQ7 : quiet trA7 := q7.2.2
  obtain ⟨stN7, pt7, pp7⟩ := sA7
  have hS7 : stN7 = 7 := q7.2.1
  subst hS7
  obtain ⟨a8, sA8, gA8, trA8, as8, sB8, gB8, trB8, hl8, hr8, ho8⟩ :=
    runTicks_succ_inv 2 _ _ _ _ hr7
  simp only [Prod.mk.injEq] at ho8
  obtain ⟨hx8, -, -, -⟩ := ho8
  subst hx8
  have q8 := loop_quiet_8 pt7 pp7 gA7 trA7 _ hQ7 hl8
  have hA8 : a8 = TickAct.pat 8 4 := q8.1
  subst hA8
  have hQ8 : quiet trA8 := q8.2.2
  obtain ⟨stN8, pt8, pp8⟩ := sA8
  have hS8 : stN8 = 8 := q8.2.1
  subst hS8
  obtain ⟨a9, sA9, gA9, trA9, as9, sB9, gB9, trB9, hl9, hr9, ho9⟩ :=
    runTicks_succ_inv 1 _ _ _ _ hr8
  simp only [Prod.mk.injEq] at ho9
  obtain ⟨hx9, -, -, -⟩ := ho9
  subst hx9
  have q9 := loop_quiet_pulse pt8 pp8 gA8 trA8 _ hQ8 hl9
  obtain ⟨⟨c, hc⟩, hS9, hQ9pre⟩ := q9
  have hA9 : a9 = TickAct.pulse c := hc
  subst hA9
  have hQ9 : quiet trA9 := hQ9pre
  obtain ⟨stN9, pt9, pp9⟩ := sA9
  have hS9b : stN9 = 0 := hS9
  subst hS9b
  obtain ⟨a10, sA10, gA10, trA10, as10, sB10, gB10, trB10, hl10, hr10, ho10⟩ :=
    runTicks_succ_inv 0 _ _ _ _ hr9
  simp only [Prod.mk.injEq] at ho10
  obtain ⟨hx10, -, -, -⟩ := ho10
  subst hx10
  have q10 := loop_quiet_1 pt9 pp9 gA9 trA9 _ hQ9 hl10
  have hA10 : a10 = TickAct.pat 1 4 := q10.1
  subst hA10
  simp only [runTicks, Option.some_inj, Prod.mk.injEq] at hr10
  obtain ⟨hx11, -, -, -⟩ := hr10
  subst hx11
  rw [ho1]
  exact ⟨c, rfl⟩

lemma quiet_snugFrom (t n : Nat) : quiet (snugFrom t n) := by
  intro x hx
  simp only [snugFrom, List.mem_map] at hx
  obtain ⟨k, -, hk⟩ := hx
  rw [← hk]

/-- Witness for C3: the canonical quiet trace extended by a tenth tick
realises the round trip concretely. -/
theorem C3_witness :
    ∃ c, (runTicks 10 setupSys setupRegs cycleTrace10).map (fun o => o.1) =
      some [TickAct.pat 1 4, TickAct.pat 2 4, TickAct.pat 3 8, TickAct.pat 4 8,
        TickAct.pat 5 8, TickAct.pat 6 8, TickAct.pat 7 4, TickAct.pat 8 4,
        TickAct.pulse c, TickAct.pat 1 4] := by
  obtain ⟨g1, h1⟩ := loop_snug_1 0 1 setupRegs (snugFrom 4000 160 ++ (snugFrom 8000 160 ++ (snugFrom 12000 160 ++ (snugFrom 16000 160 ++ (snugFrom 20000 160 ++ (snugFrom 24000 160 ++ (snugFrom 28000 320 ++ ((36000, 0) :: (36025, 0) :: snugFrom 36000 160)))))))) (by norm_num)
  norm_num at h1
  obtain ⟨g2, h2⟩ := loop_snug_2 4000 1 g1 (snugFrom 8000 160 ++ (snugFrom 12000 160 ++ (snugFrom 16000 160 ++ (snugFrom 20000 160 ++ (snugFrom 24000 160 ++ (snugFrom 28000 320 ++ ((36000, 0) :: (36025, 0) :: snugFrom 36000 160))))))) (by norm_num)
  norm_num at h2
  obtain ⟨g3, h3⟩ := loop_snug_3 8000 1 g2 (snugFrom 12000 160 ++ (snugFrom 16000 160 ++ (snugFrom 20000 160 ++ (snugFrom 24000 160 ++ (snugFrom 28000 320 ++ ((36000, 0) :: (36025, 0) :: snugFrom 36000 160)))))) (by norm_num)
  norm_num at h3
  obtain ⟨g4, h4⟩ := loop_snug_4 12000 1 g3 (snugFrom 16000 160 ++ (snugFrom 20000 160 ++ (snugFrom 24000 160 ++ (snugFrom 28000 320 ++ ((36000, 0) :: (36025, 0) :: snugFrom 36000 160))))) (by norm_num)
  norm_num at h4
  obtain ⟨g5, h5⟩ := loop_snug_5 16000 1 g4 (snugFrom 20000 160 ++ (snugFrom 24000 160 ++ (snugFrom 28000 320 ++ ((36000, 0) :: (36025, 0) :: snugFrom 36000 160)))) (by norm_num)
  norm_num at h5
  obtain ⟨g6, h6⟩ := loop_snug_6 20000 1 g5 (snugFrom 24000 160 ++ (snugFrom 28000 320 ++ ((36000, 0) :: (36025, 0) :: snugFrom 36000 160))) (by norm_num)
  norm_num at h6
  obtain ⟨g7, h7⟩ := loop_snug_7 24000 1 g6 (snugFrom 28000 320 ++ ((36000, 0) :: (36025, 0) :: snugFrom 36000 160)) (by norm_num)
  norm_num at h7
  obtain ⟨g8, h8⟩ := loop_snug_8 28000 1 g7 ((36000, 0) :: (36025, 0) :: snugFrom 36000 160) (by norm_num)
  norm_num at h8
  have hp := loop_snug_pulse 36000 1 g8 (snugFrom 36000 160)
  norm_num at hp
  obtain ⟨g10, h10⟩ := loop_snug_1 36000 1 { g8 with PA := 0 } [] (by norm_num)
  norm_num at h10
  have r0 : runTicks 0 ⟨1, 40000, 1⟩ g10 [] = some ([], ⟨1, 40000, 1⟩, g10, []) := rfl
  have r1 := runTicks_succ 0 _ _ _ _ _ _ _ _ _ _ _ h10 r0
  have r2 := runTicks_succ 1 _ _ _ _ _ _ _ _ _ _ _ hp r1
  have r3 := runTicks_succ 2 _ _ _ _ _ _ _ _ _ _ _ h8 r2
  have r4 := runTicks_succ 3 _ _ _ _ _ _ _ _ _ _ _ h7 r3
  have r5 := runTicks_succ 4 _ _ _ _ _ _ _ _ _ _ _ h6 r4
  have r6 := runTicks_succ 5 _ _ _ _ _ _ _ _ _ _ _ h5 r5
  have r7 := runTicks_succ 6 _ _ _ _ _ _ _ _ _ _ _ h4 r6
  have r8 := runTicks_succ 7 _ _ _ _ _ _ _ _ _ _ _ h3 r7
  have r9 := runTicks_succ 8 _ _ _ _ _ _ _ _ _ _ _ h2 r8
  have r10 := runTicks_succ 9 _ _ _ _ _ _ _ _ _ _ _ h1 r9
  have htr : cycleTrace10 = snugFrom 0 160 ++ (snugFrom 4000 160 ++ (snugFrom 8000 160 ++ (snugFrom 12000 160 ++ (snugFrom 16000 160 ++ (snugFrom 20000 160 ++ (snugFrom 24000 160 ++ (snugFrom 28000 320 ++ ((36000, 0) :: (36025, 0) :: snugFrom 36000 160)))))))) := by
    simp [cycleTrace10, cycleTrace, List.append_assoc]
  have hquiet : quiet (snugFrom 0 160 ++ (snugFrom 4000 160 ++ (snugFrom 8000 160 ++ (snugFrom 12000 160 ++ (snugFrom 16000 160 ++ (snugFrom 20000 160 ++ (snugFrom 24000 160 ++ (snugFrom 28000 320 ++ ((36000, 0) :: (36025, 0) :: snugFrom 36000 160))))))))) := by
    intro x hx
    simp only [List.mem_append, List.mem_cons] at hx
    rcases hx with h | h | h | h | h | h | h | h | h | h | h
    · exact quiet_snugFrom _ _ x h
    · exact quiet_snugFrom _ _ x h
    · exact quiet_snugFrom _ _ x h
    · exact quiet_snugFrom _ _ x h
    · exact quiet_snugFrom _ _ x h
    · exact quiet_snugFrom _ _ x h
    · exact quiet_snugFrom _ _ x h
    · exact quiet_snugFrom _ _ x h
    · simp [h]
    · simp [h]
    · exact quiet_snugFrom _ _ x h
  norm_num at r10
  obtain ⟨c, hacts⟩ := C3_scheduler_roundtrip ⟨0, 0, 1⟩ setupRegs
    (snugFrom 0 160 ++ (snugFrom 4000 160 ++ (snugFrom 8000 160 ++ (snugFrom 12000 160 ++ (snugFrom 16000 160 ++ (snugFrom 20000 160 ++ (snugFrom 24000 160 ++ (snugFrom 28000 320 ++ ((36000, 0) :: (36025, 0) :: snugFrom 36000 160))))))))) _ rfl hquiet r10
  refine ⟨c, ?_⟩
  rw [show setupSys = (⟨0, 0, 1⟩ : Sys) from rfl, htr, r10]
  exact congrArg some hacts
